import Mathlib

/-!
# Incident snapshot collector

A shallow embedding of `src/main.cpp` and the properties its specification
states about it.

* A `std::string` is a list of characters (`Str`).
* The outside world the program talks to is split in two: `Env` holds what the
  host answers (working directory, local time, the result of creating the
  output directory, whether a file opens for writing, what each shell command
  prints, what each existence check reports); `World` holds what the program changes (file contents, the standard
  streams) together with a log of every effect in program order.
* The source never tests an `std::ofstream`: when the open fails nothing is
  written and the program carries on. The host decides the outcome of every
  open (`Env.ofstream`), so a run on a read-only file or directory is a run of
  the model too.
-/

namespace IncidentSnapshot

/-- A `std::string`. -/
abbrev Str := List Char

/-! ## Effects -/

/-- One observable effect of the program. -/
inductive Event where
  /-- A call `fs::create_directories(p, ec)`. -/
  | mkdir (p : Str)
  /-- An `std::ofstream` on `p` with `std::ios::trunc`, whether it opens or not. -/
  | trunc (p : Str)
  /-- An `std::ofstream` on `p` with `std::ios::app` that is given `data`, whether it
  opens or not. -/
  | append (p : Str) (data : Str)
  /-- A call `popen(cmd, "r")`. -/
  | popen (cmd : Str)
  /-- A call `fs::exists(p, ec)`. -/
  | stat (p : Str)
  deriving DecidableEq

/-! ## The host -/

/-- A `std::tm`: a broken-down local time, fields as the C library names them. -/
structure Tm where
  tm_year : Int
  tm_mon : Int
  tm_mday : Int
  tm_hour : Int
  tm_min : Int
  tm_sec : Int

/-- What the host answers.
* `cwd`: `fs::current_path()`;
* `localtime`: the result of `localtime_r` on the current time;
* `create_directories p`: `none` when `fs::create_directories(p, ec)` leaves `ec`
  clear, `some msg` when it sets an error whose `message()` is `msg`;
* `popen cmd`: `none` when `popen` fails, otherwise the bytes the child prints
  before end of file and the status `pclose` returns;
* `fs_exists p`: the value `fs::exists(p, ec)` returns and whether it sets `ec`;
* `ofstream log p`: what happens when an `std::ofstream` is opened on `p` after
  the effects in `log`: `none` when the open fails, `some none` when the stream
  opens and delivers all it is given, `some (some n)` when it opens and delivers
  the first `n` characters only. -/
structure Env where
  cwd : Str
  localtime : Tm
  create_directories : Str → Option Str
  popen : Str → Option (Str × Int)
  fs_exists : Str → Bool × Bool
  ofstream : List Event → Str → Option (Option Nat)

/-! ## The world -/

/-- What the program changes. `files p = none` means that `p` does not exist. -/
structure World where
  files : Str → Option Str
  log : List Event
  cout : Str
  cerr : Str

/-- Append one event to the log. -/
def World.record (w : World) (e : Event) : World :=
  { w with log := w.log ++ [e] }

/-- What a file holds after an `std::ofstream` opened with `std::ios::trunc` is
closed without a write: unchanged when the open failed, empty otherwise. -/
def truncated (outcome : Option (Option Nat)) (old : Option Str) : Option Str :=
  match outcome with
  | none => old
  | some _ => some []

/-- What a file holds after an `std::ofstream` opened with `std::ios::app` was
given `data` and closed: unchanged when the open failed; otherwise the file
exists and what the stream delivered lands after what it held. -/
def appended (outcome : Option (Option Nat)) (old : Option Str) (data : Str) : Option Str :=
  match outcome with
  | none => old
  | some none => some (old.getD [] ++ data)
  | some (some n) => some (old.getD [] ++ data.take n)

/-- Effect of `std::ofstream f(p, std::ios::trunc)`. -/
def World.truncFile (w : World) (env : Env) (p : Str) : World :=
  { w with files := Function.update w.files p (truncated (env.ofstream w.log p) (w.files p)),
           log := w.log ++ [Event.trunc p] }

/-- Effect of `std::ofstream f(p, std::ios::app)` followed by writing `data` and
closing. The stream is never tested, as in the source. -/
def World.appendFile (w : World) (env : Env) (p : Str) (data : Str) : World :=
  { w with files := Function.update w.files p
             (appended (env.ofstream w.log p) (w.files p) data),
           log := w.log ++ [Event.append p data] }

/-! ## `write_section` -/

/-- The characters `write_section` sends to its stream, statement by statement
(lines 37 to 44 of the source). -/
def section_text (title body : Str) : Str :=
  let f : Str := []
  let f := f ++ title ++ "\n".toList
  let f := f ++ List.replicate title.length '=' ++ "\n".toList
  if body.isEmpty then f ++ "(no output)\n\n".toList
  else
    let f := f ++ body
    let f := if !body.isEmpty && body.getLast? != some '\n' then f ++ "\n".toList else f
    f ++ "\n".toList

/-- Source `write_section(file, title, body)`. -/
def write_section (env : Env) (file title body : Str) (w : World) : World :=
  w.appendFile env file (section_text title body)

/-- Number of newline characters at the very end of a string. -/
def trailingNewlines (s : Str) : Nat :=
  (s.reverse.takeWhile (fun c => c == '\n')).length

/-- The title line and the underline that open every section. -/
def section_header (title : Str) : Str :=
  title ++ "\n".toList ++ List.replicate title.length '=' ++ "\n".toList

/-- A world used for concrete evaluation: no file exists, nothing has happened. -/
def emptyWorld : World :=
  { files := fun _ => none, log := [], cout := [], cerr := [] }

/-- A world in which every path holds the text `old\n`. -/
def oldWorld : World :=
  { files := fun _ => some "old\n".toList, log := [], cout := [], cerr := [] }

/-! ## `run_capture` -/

/-- The size of the buffer `buf` in `run_capture`. -/
def BUF_SIZE : Nat := 4096

/-- One call `fread(buf.data(), 1, size, pipe)` on a stream that still holds
`pipe`: the bytes delivered and the bytes left. A full chunk is delivered while
at least `size` bytes remain. -/
def fread (size : Nat) (pipe : Str) : Str × Str :=
  (pipe.take size, pipe.drop size)

/-- The `while (true)` loop of `run_capture` (lines 24 to 28): `pipe` is what the
stream still holds, `out` the string built so far. -/
def read_loop (pipe out : Str) : Str :=
  let r := fread BUF_SIZE pipe
  let n := r.1.length
  let out := if n > 0 then out ++ r.1 else out
  if _h : n < BUF_SIZE then out else read_loop r.2 out
termination_by pipe.length
decreasing_by
  have h1 : ¬ (fread BUF_SIZE pipe).1.length < BUF_SIZE := _h
  simp only [fread, BUF_SIZE, List.length_take, List.length_drop] at h1 ⊢
  omega

/-- Source `run_capture(cmd)`: the captured text and the world after the call. -/
def run_capture (env : Env) (cmd : Str) (w : World) : Str × World :=
  let full := cmd ++ " 2>&1".toList
  let w := w.record (Event.popen full)
  match env.popen full with
  | none => ("ERROR: popen() failed (command may be restricted)\n".toList, w)
  | some (pipe, _rc) => (read_loop pipe [], w)

/-- The text `run_capture(cmd)` returns on a given host. -/
def captured (env : Env) (cmd : Str) : Str :=
  (run_capture env cmd emptyWorld).1

/-! ## `now_stamp` -/

/-- The conversion `%0<width>d` of `printf`: decimal digits, a minus sign for a
negative value, zeros after the sign up to the field width. -/
def fmt_d (width : Nat) (v : Int) : Str :=
  if v < 0 then
    let ds := Nat.toDigits 10 v.natAbs
    '-' :: (List.replicate (width - 1 - ds.length) '0' ++ ds)
  else
    let ds := Nat.toDigits 10 v.toNat
    List.replicate (width - ds.length) '0' ++ ds

/-- The formatting step of `now_stamp` (lines 57 to 61): `snprintf` into a
buffer of 64 bytes keeps at most 63 characters. -/
def now_stamp (tm : Tm) : Str :=
  (fmt_d 4 (tm.tm_year + 1900) ++ "-".toList ++ fmt_d 2 (tm.tm_mon + 1) ++ "-".toList
    ++ fmt_d 2 tm.tm_mday ++ "_".toList ++ fmt_d 2 tm.tm_hour ++ "-".toList
    ++ fmt_d 2 tm.tm_min ++ "-".toList ++ fmt_d 2 tm.tm_sec).take 63

/-- The number a string of decimal digits denotes. -/
def readNat (s : Str) : Nat :=
  s.foldl (fun acc c => 10 * acc + (c.toNat - 48)) 0

/-! ## Paths and strings -/

/-- Source `ensure_clean_file(p)`. -/
def ensure_clean_file (env : Env) (p : Str) (w : World) : World :=
  w.truncFile env p

/-- The operator `/` of `fs::path` on a POSIX host: an absolute right-hand side
replaces the left one; otherwise a separator is inserted when the left-hand side
ends in a file name. -/
def path_append (p q : Str) : Str :=
  if q.head? = some '/' then q
  else if p = [] ∨ p.getLast? = some '/' then p ++ q
  else p ++ '/' :: q

/-- Method `filename()` of `fs::path`: what follows the last separator. -/
def filename (p : Str) : Str :=
  (p.reverse.takeWhile (fun c => c != '/')).reverse

/-- The double quote character. -/
def dquote : Char := Char.ofNat 34

/-- The escape character of `std::quoted`. -/
def escape : Char := Char.ofNat 92

/-- What `operator<<` prints for an `fs::path`: the text between double quotes,
with every double quote and backslash escaped. -/
def quoted (s : Str) : Str :=
  [dquote] ++ s.flatMap (fun c => if c = dquote ∨ c = escape then [escape, c] else [c])
    ++ [dquote]

/-- Method `find` of `std::string`: the first position at which `pat` occurs in
the string, `none` standing for `npos`. -/
def find : Str → Str → Option Nat
  | [], pat => if pat.isPrefixOf [] then some 0 else none
  | c :: t, pat =>
    if pat.isPrefixOf (c :: t) then some 0 else (find t pat).map (fun i => i + 1)

/-! ## `main` -/

/-- The test both probes of `main` apply to the probe's output (lines 113 and
123): not empty and no occurrence of `not found`. -/
def tool_available (probe : Str) : Bool :=
  !probe.isEmpty && find probe "not found".toList == none

/-- The six category files of a run, as `main` names them (lines 80 to 85). -/
structure Files where
  system_txt : Str
  users_txt : Str
  proc_txt : Str
  net_txt : Str
  services_txt : Str
  auth_txt : Str

/-- The six paths of a run, in the order of their creation. -/
def Files.all (fl : Files) : List Str :=
  [fl.system_txt, fl.users_txt, fl.proc_txt, fl.net_txt, fl.services_txt, fl.auth_txt]

/-- The output directory `main` computes (line 70). -/
def out_dir (env : Env) : Str :=
  path_append env.cwd ("incident-snapshot-".toList ++ now_stamp env.localtime)

/-- The paths of the six category files inside a directory. -/
def files_in (dir : Str) : Files :=
  { system_txt := path_append dir "system.txt".toList,
    users_txt := path_append dir "users.txt".toList,
    proc_txt := path_append dir "processes.txt".toList,
    net_txt := path_append dir "network.txt".toList,
    services_txt := path_append dir "services.txt".toList,
    auth_txt := path_append dir "auth_hints.txt".toList }

/-- Lines 87 to 92 of `main`: the six calls of `ensure_clean_file`. -/
def main_clean (env : Env) (fl : Files) (w : World) : World :=
  let w := ensure_clean_file env fl.system_txt w
  let w := ensure_clean_file env fl.users_txt w
  let w := ensure_clean_file env fl.proc_txt w
  let w := ensure_clean_file env fl.net_txt w
  let w := ensure_clean_file env fl.services_txt w
  ensure_clean_file env fl.auth_txt w

/-- One statement `write_section(file, title, run_capture(cmd))`: the command
runs first, then the section is written. -/
def capture_section (env : Env) (file title cmd : Str) (w : World) : World :=
  let r := run_capture env cmd w
  write_section env file title r.1 r.2

/-- Lines 94 to 98 of `main`: the block `SYSTEM`. -/
def main_system (env : Env) (fl : Files) (w : World) : World :=
  let w := capture_section env fl.system_txt "Date".toList "date".toList w
  let w := capture_section env fl.system_txt "Hostname".toList "hostname".toList w
  let w := capture_section env fl.system_txt "Uptime".toList "uptime".toList w
  capture_section env fl.system_txt "Kernel/OS".toList "uname -a".toList w

/-- Lines 100 to 103 of `main`: the block `USERS`. -/
def main_users (env : Env) (fl : Files) (w : World) : World :=
  let w := capture_section env fl.users_txt "Logged in users (who)".toList "who".toList w
  let w := capture_section env fl.users_txt "Recent logins (last -n 20)".toList
    "last -n 20".toList w
  capture_section env fl.users_txt "Current user (id)".toList "id".toList w

/-- Lines 105 to 109 of `main`: the block `PROCESSES`. -/
def main_processes (env : Env) (fl : Files) (w : World) : World :=
  let w := capture_section env fl.proc_txt
    "Top CPU processes (ps aux --sort=-%cpu | head -n 25)".toList
    "ps aux --sort=-%cpu | head -n 25".toList w
  capture_section env fl.proc_txt
    "Top MEM processes (ps aux --sort=-%mem | head -n 25)".toList
    "ps aux --sort=-%mem | head -n 25".toList w

/-- Lines 111 to 119 of `main`: the block `NETWORK`. -/
def main_network (env : Env) (fl : Files) (w : World) : World :=
  let r := run_capture env "command -v ss".toList w
  let has_ss := r.1
  let w := r.2
  if !has_ss.isEmpty && find has_ss "not found".toList == none then
    let w := capture_section env fl.net_txt "Listening sockets (ss -lntup)".toList
      "ss -lntup".toList w
    capture_section env fl.net_txt "Active connections (ss -ntup)".toList
      "ss -ntup".toList w
  else
    let w := capture_section env fl.net_txt "Listening sockets (netstat -lntup)".toList
      "netstat -lntup".toList w
    capture_section env fl.net_txt "Active connections (netstat -ntup)".toList
      "netstat -ntup".toList w

/-- Lines 121 to 129 of `main`: the block `SERVICES`. -/
def main_services (env : Env) (fl : Files) (w : World) : World :=
  let r := run_capture env "command -v systemctl".toList w
  let has_systemctl := r.1
  let w := r.2
  if !has_systemctl.isEmpty && find has_systemctl "not found".toList == none then
    capture_section env fl.services_txt
      "Running services (systemctl list-units --type=service --state=running)".toList
      "systemctl list-units --type=service --state=running --no-pager".toList w
  else
    write_section env fl.services_txt "Running services".toList
      "systemctl not available on this system.\n".toList w

/-- The body of the section written when no authentication log is found. -/
def no_auth_log_message : Str :=
  "No auth log found at /var/log/auth.log or /var/log/secure (or access is restricted).\n".toList

/-- Lines 131 to 145 of `main`: the block `AUTH HINTS`. The local `ec` is the
error flag both calls of `fs::exists` write; since each call overwrites it, the
`ec.clear()` of line 137 changes nothing and has no counterpart here. -/
def main_auth_hints (env : Env) (fl : Files) (w : World) : World :=
  let any_auth := false
  let w := w.record (Event.stat "/var/log/auth.log".toList)
  let r := env.fs_exists "/var/log/auth.log".toList
  let ec := r.2
  let s :=
    if r.1 && !ec then
      (true, capture_section env fl.auth_txt "Last 50 lines of /var/log/auth.log".toList
        "tail -n 50 /var/log/auth.log".toList w)
    else (any_auth, w)
  let any_auth := s.1
  let w := s.2
  let w := w.record (Event.stat "/var/log/secure".toList)
  let r := env.fs_exists "/var/log/secure".toList
  let ec := r.2
  let s :=
    if r.1 && !ec then
      (true, capture_section env fl.auth_txt "Last 50 lines of /var/log/secure".toList
        "tail -n 50 /var/log/secure".toList w)
    else (any_auth, w)
  let any_auth := s.1
  let w := s.2
  if !any_auth then
    write_section env fl.auth_txt "Auth logs".toList no_auth_log_message w
  else w

/-- Lines 147 to 155 of `main`: the summary on the standard output. -/
def main_summary (dir : Str) (fl : Files) (w : World) : World :=
  { w with cout := w.cout
      ++ "Incident snapshot saved to:\n  ".toList ++ dir ++ "\n".toList
      ++ "Files created:\n".toList
      ++ "  - ".toList ++ filename fl.system_txt ++ "\n".toList
      ++ "  - ".toList ++ filename fl.users_txt ++ "\n".toList
      ++ "  - ".toList ++ filename fl.proc_txt ++ "\n".toList
      ++ "  - ".toList ++ filename fl.net_txt ++ "\n".toList
      ++ "  - ".toList ++ filename fl.services_txt ++ "\n".toList
      ++ "  - ".toList ++ filename fl.auth_txt ++ "\n\n".toList
      ++ "Tip: upload a sample run (folder contents) to GitHub under sample-output/.\n".toList }

/-- Source `main()`: the exit code and the world after the run. -/
def main (env : Env) (w : World) : Int × World :=
  let dir := out_dir env
  let w := w.record (Event.mkdir dir)
  match env.create_directories dir with
  | some msg =>
    let w := { w with cerr := w.cerr ++ "Failed to create output directory: ".toList
                        ++ quoted dir ++ "\n".toList }
    let w := { w with cerr := w.cerr ++ "Error: ".toList ++ msg ++ "\n".toList }
    (1, w)
  | none =>
    let fl := files_in dir
    let w := main_clean env fl w
    let w := main_system env fl w
    let w := main_users env fl w
    let w := main_processes env fl w
    let w := main_network env fl w
    let w := main_services env fl w
    let w := main_auth_hints env fl w
    let w := main_summary dir fl w
    (0, w)

/-! ## What a run is expected to leave behind

The definitions of this section restate, block by block, what `main` does and
what a category file holds when its streams all open and deliver what they are
given. The lemmas further down prove that `main` agrees with them; the theorems
on the claims are stated on `main` itself. -/

/-- The sections a log shows to have been appended to `p`, oldest first. -/
def sections_written (log : List Event) (p : Str) : List Str :=
  log.filterMap (fun e =>
    match e with
    | Event.append q d => if q = p then some d else none
    | _ => none)

/-- The command lines a log shows to have been handed to `popen`, oldest first. -/
def commands_run (log : List Event) : List Str :=
  log.filterMap (fun e =>
    match e with
    | Event.popen c => some c
    | _ => none)

/-- Whether `main` takes the log file `p` to exist: `fs::exists` returned true
and reported no error. -/
def log_found (env : Env) (p : Str) : Bool :=
  (env.fs_exists p).1 && !(env.fs_exists p).2

/-- The two events of one statement `write_section(file, title, run_capture(cmd))`. -/
def section_events (env : Env) (file title cmd : Str) : List Event :=
  [Event.popen (cmd ++ " 2>&1".toList),
   Event.append file (section_text title (captured env cmd))]

/-- Expected content of `system.txt`. -/
def system_sections (env : Env) : Str :=
  section_text "Date".toList (captured env "date".toList)
    ++ section_text "Hostname".toList (captured env "hostname".toList)
    ++ section_text "Uptime".toList (captured env "uptime".toList)
    ++ section_text "Kernel/OS".toList (captured env "uname -a".toList)

/-- Expected content of `users.txt`. -/
def users_sections (env : Env) : Str :=
  section_text "Logged in users (who)".toList (captured env "who".toList)
    ++ section_text "Recent logins (last -n 20)".toList (captured env "last -n 20".toList)
    ++ section_text "Current user (id)".toList (captured env "id".toList)

/-- Expected content of `processes.txt`. -/
def proc_sections (env : Env) : Str :=
  section_text "Top CPU processes (ps aux --sort=-%cpu | head -n 25)".toList
      (captured env "ps aux --sort=-%cpu | head -n 25".toList)
    ++ section_text "Top MEM processes (ps aux --sort=-%mem | head -n 25)".toList
      (captured env "ps aux --sort=-%mem | head -n 25".toList)

/-- Expected content of `network.txt`. -/
def net_sections (env : Env) : Str :=
  if tool_available (captured env "command -v ss".toList) then
    section_text "Listening sockets (ss -lntup)".toList (captured env "ss -lntup".toList)
      ++ section_text "Active connections (ss -ntup)".toList (captured env "ss -ntup".toList)
  else
    section_text "Listening sockets (netstat -lntup)".toList
        (captured env "netstat -lntup".toList)
      ++ section_text "Active connections (netstat -ntup)".toList
        (captured env "netstat -ntup".toList)

/-- Expected content of `services.txt`. -/
def services_sections (env : Env) : Str :=
  if tool_available (captured env "command -v systemctl".toList) then
    section_text
      "Running services (systemctl list-units --type=service --state=running)".toList
      (captured env "systemctl list-units --type=service --state=running --no-pager".toList)
  else
    section_text "Running services".toList "systemctl not available on this system.\n".toList

/-- The section on `/var/log/auth.log`. -/
def auth_log_section (env : Env) : Str :=
  section_text "Last 50 lines of /var/log/auth.log".toList
    (captured env "tail -n 50 /var/log/auth.log".toList)

/-- The section on `/var/log/secure`. -/
def secure_section (env : Env) : Str :=
  section_text "Last 50 lines of /var/log/secure".toList
    (captured env "tail -n 50 /var/log/secure".toList)

/-- The section written when neither log is found. -/
def no_auth_section : Str :=
  section_text "Auth logs".toList no_auth_log_message

/-- Expected content of `auth_hints.txt`. -/
def auth_sections (env : Env) : Str :=
  (if log_found env "/var/log/auth.log".toList then auth_log_section env else [])
    ++ (if log_found env "/var/log/secure".toList then secure_section env else [])
    ++ (if !log_found env "/var/log/auth.log".toList && !log_found env "/var/log/secure".toList
        then no_auth_section else [])

/-- Expected events of the six calls of `ensure_clean_file`. -/
def clean_events (fl : Files) : List Event :=
  [Event.trunc fl.system_txt, Event.trunc fl.users_txt, Event.trunc fl.proc_txt,
   Event.trunc fl.net_txt, Event.trunc fl.services_txt, Event.trunc fl.auth_txt]

/-- Expected events of the block `SYSTEM`. -/
def system_events (env : Env) (fl : Files) : List Event :=
  section_events env fl.system_txt "Date".toList "date".toList
    ++ section_events env fl.system_txt "Hostname".toList "hostname".toList
    ++ section_events env fl.system_txt "Uptime".toList "uptime".toList
    ++ section_events env fl.system_txt "Kernel/OS".toList "uname -a".toList

/-- Expected events of the block `USERS`. -/
def users_events (env : Env) (fl : Files) : List Event :=
  section_events env fl.users_txt "Logged in users (who)".toList "who".toList
    ++ section_events env fl.users_txt "Recent logins (last -n 20)".toList "last -n 20".toList
    ++ section_events env fl.users_txt "Current user (id)".toList "id".toList

/-- Expected events of the block `PROCESSES`. -/
def proc_events (env : Env) (fl : Files) : List Event :=
  section_events env fl.proc_txt
      "Top CPU processes (ps aux --sort=-%cpu | head -n 25)".toList
      "ps aux --sort=-%cpu | head -n 25".toList
    ++ section_events env fl.proc_txt
      "Top MEM processes (ps aux --sort=-%mem | head -n 25)".toList
      "ps aux --sort=-%mem | head -n 25".toList

/-- Expected events of the block `NETWORK`. -/
def net_events (env : Env) (fl : Files) : List Event :=
  Event.popen "command -v ss 2>&1".toList ::
    (if tool_available (captured env "command -v ss".toList) then
      section_events env fl.net_txt "Listening sockets (ss -lntup)".toList "ss -lntup".toList
        ++ section_events env fl.net_txt "Active connections (ss -ntup)".toList
          "ss -ntup".toList
    else
      section_events env fl.net_txt "Listening sockets (netstat -lntup)".toList
          "netstat -lntup".toList
        ++ section_events env fl.net_txt "Active connections (netstat -ntup)".toList
          "netstat -ntup".toList)

/-- Expected events of the block `SERVICES`. -/
def services_events (env : Env) (fl : Files) : List Event :=
  Event.popen "command -v systemctl 2>&1".toList ::
    (if tool_available (captured env "command -v systemctl".toList) then
      section_events env fl.services_txt
        "Running services (systemctl list-units --type=service --state=running)".toList
        "systemctl list-units --type=service --state=running --no-pager".toList
    else
      [Event.append fl.services_txt (section_text "Running services".toList
        "systemctl not available on this system.\n".toList)])

/-- Expected events of the block `AUTH HINTS`. -/
def auth_events (env : Env) (fl : Files) : List Event :=
  Event.stat "/var/log/auth.log".toList ::
    (if log_found env "/var/log/auth.log".toList then
      section_events env fl.auth_txt "Last 50 lines of /var/log/auth.log".toList
        "tail -n 50 /var/log/auth.log".toList
     else [])
    ++ Event.stat "/var/log/secure".toList ::
    (if log_found env "/var/log/secure".toList then
      section_events env fl.auth_txt "Last 50 lines of /var/log/secure".toList
        "tail -n 50 /var/log/secure".toList
     else [])
    ++ (if !log_found env "/var/log/auth.log".toList && !log_found env "/var/log/secure".toList
        then [Event.append fl.auth_txt no_auth_section] else [])

/-- Expected events of a run in which the output directory is created. -/
def run_events (env : Env) : List Event :=
  Event.mkdir (out_dir env) :: clean_events (files_in (out_dir env))
    ++ system_events env (files_in (out_dir env))
    ++ users_events env (files_in (out_dir env))
    ++ proc_events env (files_in (out_dir env))
    ++ net_events env (files_in (out_dir env))
    ++ services_events env (files_in (out_dir env))
    ++ auth_events env (files_in (out_dir env))

/-- A text that opens with a complete section: a title line, an underline of
`=` as long as the title, a body of at least one line, and a blank line. -/
def starts_with_section (s : Str) : Prop :=
  ∃ title lines rest : Str, lines ≠ [] ∧ lines.getLast? = some '\n' ∧
    s = title ++ "\n".toList ++ List.replicate title.length '=' ++ "\n".toList
          ++ lines ++ "\n".toList ++ rest

/-! ## Hosts used for concrete evaluation -/

/-- The local time 2024-03-05 07:08:09. -/
def sampleTm : Tm :=
  { tm_year := 124, tm_mon := 2, tm_mday := 5, tm_hour := 7, tm_min := 8, tm_sec := 9 }

/-- A host on which the directory is created, every stream opens and delivers
all it is given, every command prints nothing and no log file exists. -/
def silentEnv : Env :=
  { cwd := "/tmp".toList, localtime := sampleTm,
    create_directories := fun _ => none,
    popen := fun _ => some ([], 0),
    fs_exists := fun _ => (false, false),
    ofstream := fun _ _ => some none }

/-- A host like `silentEnv` on which no file opens for writing: the output
directory exists already and is read-only. -/
def lockedEnv : Env :=
  { silentEnv with ofstream := fun _ _ => none }

/-- A host like `silentEnv` on which every command prints its own command line,
without a final newline. -/
def echoEnv : Env :=
  { silentEnv with popen := fun c => some (c, 0) }

/-- A host like `echoEnv` on which `/var/log/auth.log` exists and
`/var/log/secure` does not. -/
def debianEnv : Env :=
  { echoEnv with fs_exists := fun p => (p == "/var/log/auth.log".toList, false) }

/-- A host on which the output directory cannot be created. -/
def readOnlyEnv : Env :=
  { silentEnv with create_directories := fun _ => some "Permission denied".toList }

/-! ## Facts about `write_section` -/

theorem section_text_empty (title : Str) :
    section_text title [] = section_header title ++ "(no output)\n\n".toList := by
  simp [section_text, section_header]

theorem section_text_newline (title body : Str) (hne : body ≠ [])
    (hnl : body.getLast? = some '\n') :
    section_text title body = section_header title ++ body ++ "\n".toList := by
  cases body with
  | nil => exact absurd rfl hne
  | cons c cs => simp [section_text, section_header, hnl]

theorem section_text_no_newline (title body : Str) (hne : body ≠ [])
    (hnl : body.getLast? ≠ some '\n') :
    section_text title body = section_header title ++ body ++ "\n\n".toList := by
  cases body with
  | nil => exact absurd rfl hne
  | cons c cs => simp [section_text, section_header, hnl]

theorem write_section_files_same (env : Env) (file title body : Str) (w : World) :
    (write_section env file title body w).files file
      = appended (env.ofstream w.log file) (w.files file) (section_text title body) := by
  simp [write_section, World.appendFile]

theorem write_section_files_other (env : Env) (file title body p : Str) (w : World)
    (h : p ≠ file) : (write_section env file title body w).files p = w.files p := by
  simp [write_section, World.appendFile, Function.update_noteq h]

theorem write_section_log (env : Env) (file title body : Str) (w : World) :
    (write_section env file title body w).log
      = w.log ++ [Event.append file (section_text title body)] := by
  simp [write_section, World.appendFile]

/-- C1, as the code has it: starting from a file that holds `F`, when the stream
opens and delivers all it is given `write_section` leaves the file holding `F`,
the title, a newline, as many `=` as the title has characters, a newline, and
then `(no output)` plus a blank line for an empty body, the body plus one
newline when the body already ends in a newline, and the body plus two
newlines otherwise; when the open fails the file still holds `F`. -/
theorem write_section_contract (env : Env) (file F T B : Str) (w : World)
    (hF : w.files file = some F) :
    (env.ofstream w.log file = some none →
      (B = [] →
        (write_section env file T B w).files file
          = some (F ++ T ++ "\n".toList ++ List.replicate T.length '=' ++ "\n".toList
                    ++ "(no output)\n\n".toList)) ∧
      (B ≠ [] → B.getLast? = some '\n' →
        (write_section env file T B w).files file
          = some (F ++ T ++ "\n".toList ++ List.replicate T.length '=' ++ "\n".toList
                    ++ B ++ "\n".toList)) ∧
      (B ≠ [] → B.getLast? ≠ some '\n' →
        (write_section env file T B w).files file
          = some (F ++ T ++ "\n".toList ++ List.replicate T.length '=' ++ "\n".toList
                    ++ B ++ "\n\n".toList))) ∧
    (env.ofstream w.log file = none →
      (write_section env file T B w).files file = some F) := by
  refine ⟨fun hopen => ⟨?_, ?_, ?_⟩, ?_⟩
  · intro hB
    subst hB
    rw [write_section_files_same, hF, hopen, section_text_empty]
    simp [appended, section_header]
  · intro hne hnl
    rw [write_section_files_same, hF, hopen, section_text_newline T B hne hnl]
    simp [appended, section_header]
  · intro hne hnl
    rw [write_section_files_same, hF, hopen, section_text_no_newline T B hne hnl]
    simp [appended, section_header]
  · intro hfail
    rw [write_section_files_same, hF, hfail]
    rfl

/-- Witness for C1: the section `Date` with body `Mon` written after `old\n` on a
host whose streams open. -/
theorem write_section_contract_witness :
    (write_section silentEnv "f".toList "Date".toList "Mon".toList oldWorld).files "f".toList
      = some "old\nDate\n====\nMon\n\n".toList :=
  (((write_section_contract silentEnv "f".toList "old\n".toList "Date".toList "Mon".toList
      oldWorld rfl).1 rfl).2.2 (by decide) (by decide)).trans (by decide)

/-- Counterexample to C1 as stated: on a file that holds `old\n` and does not
open for writing, `write_section` leaves `old\n` and no section. -/
theorem write_section_unwritable :
    oldWorld.files "f".toList = some "old\n".toList ∧
    (write_section lockedEnv "f".toList "Date".toList "Mon".toList oldWorld).files "f".toList
      = some "old\n".toList ∧
    (write_section lockedEnv "f".toList "Date".toList "Mon".toList oldWorld).files "f".toList
      ≠ some "old\nDate\n====\nMon\n\n".toList := by
  decide

/-- C2, as the code has it: when the stream of each of two calls of
`write_section` with the same title and body opens and delivers all it is
given, the file holds its prior content followed by two copies of the section
text; every other file is left alone. -/
theorem write_section_twice (env : Env) (file F T B : Str) (w : World)
    (hF : w.files file = some F)
    (h₁ : env.ofstream w.log file = some none)
    (h₂ : env.ofstream (write_section env file T B w).log file = some none) :
    (write_section env file T B (write_section env file T B w)).files file
        = some (F ++ section_text T B ++ section_text T B) ∧
    F <+: ((write_section env file T B (write_section env file T B w)).files file).getD [] ∧
    (∀ p, p ≠ file →
      (write_section env file T B (write_section env file T B w)).files p = w.files p) := by
  have h : (write_section env file T B (write_section env file T B w)).files file
        = some (F ++ section_text T B ++ section_text T B) := by
    rw [write_section_files_same, h₂, write_section_files_same, h₁, hF]
    simp [appended]
  refine ⟨h, ?_, ?_⟩
  · rw [h]
    exact ⟨section_text T B ++ section_text T B, by simp⟩
  · intro p hp
    rw [write_section_files_other _ _ _ _ _ _ hp, write_section_files_other _ _ _ _ _ _ hp]

/-- Witness for C2: the section `Date` with body `Mon` written twice after `old\n`
on a host whose streams open. -/
theorem write_section_twice_witness :
    (write_section silentEnv "f".toList "Date".toList "Mon".toList
        (write_section silentEnv "f".toList "Date".toList "Mon".toList oldWorld)).files
        "f".toList
      = some "old\nDate\n====\nMon\n\nDate\n====\nMon\n\n".toList :=
  ((write_section_twice silentEnv "f".toList "old\n".toList "Date".toList "Mon".toList
      oldWorld rfl rfl rfl).1).trans (by decide)

/-- Counterexample to C2 as stated: two calls on a file that holds `old\n` and
does not open for writing leave `old\n`, without any copy of the section. -/
theorem write_section_twice_unwritable :
    oldWorld.files "f".toList = some "old\n".toList ∧
    (write_section lockedEnv "f".toList "Date".toList "Mon".toList
        (write_section lockedEnv "f".toList "Date".toList "Mon".toList oldWorld)).files
        "f".toList
      = some "old\n".toList ∧
    (write_section lockedEnv "f".toList "Date".toList "Mon".toList
        (write_section lockedEnv "f".toList "Date".toList "Mon".toList oldWorld)).files
        "f".toList
      ≠ some "old\nDate\n====\nMon\n\nDate\n====\nMon\n\n".toList := by
  decide

/-! ## Facts about `run_capture` -/

theorem read_loop_eq (pipe out : Str) : read_loop pipe out = out ++ pipe := by
  generalize hk : pipe.length = k
  induction k using Nat.strong_induction_on generalizing pipe out with
  | _ k ih =>
    rw [read_loop]
    simp only [fread, BUF_SIZE, List.length_take]
    by_cases hlt : min 4096 pipe.length < 4096
    · have ht : List.take 4096 pipe = pipe := List.take_of_length_le (by omega)
      simp only [hlt, ↓reduceDIte, ht]
      by_cases h0 : 0 < min 4096 pipe.length
      · simp [h0]
      · have hz : pipe.length = 0 := by omega
        have hnil : pipe = [] := List.length_eq_zero.mp hz
        simp [hnil]
    · have h0 : min 4096 pipe.length > 0 := by omega
      simp only [hlt, ↓reduceDIte, h0, ↓reduceIte]
      rw [ih (pipe.drop 4096).length (by simp; omega) _ _ rfl]
      simp

theorem run_capture_snd (env : Env) (cmd : Str) (w : World) :
    (run_capture env cmd w).2 = w.record (Event.popen (cmd ++ " 2>&1".toList)) := by
  unfold run_capture
  dsimp only
  split <;> rfl

theorem run_capture_fst (env : Env) (cmd : Str) (w : World) :
    (run_capture env cmd w).1 = captured env cmd := by
  unfold captured run_capture
  dsimp only
  split <;> rfl

theorem captured_of_popen (env : Env) (cmd S : Str) (rc : Int)
    (h : env.popen (cmd ++ " 2>&1".toList) = some (S, rc)) : captured env cmd = S := by
  unfold captured run_capture
  dsimp only
  rw [h]
  simp [read_loop_eq]

/-- C8: when the command starts and its stream holds `S`, the read loop ends and
`run_capture` returns exactly `S`, whatever the length of `S` and whatever the
exit status. -/
theorem run_capture_returns_stream (env : Env) (cmd S : Str) (rc : Int) (w : World)
    (h : env.popen (cmd ++ " 2>&1".toList) = some (S, rc)) :
    (run_capture env cmd w).1 = S ∧ read_loop S [] = S := by
  refine ⟨?_, by simp [read_loop_eq]⟩
  rw [run_capture_fst]
  exact captured_of_popen env cmd S rc h

/-- Witness for C8: a stream of exactly one full buffer and exit status 7. -/
theorem run_capture_returns_stream_witness :
    (run_capture { silentEnv with popen := fun _ => some (List.replicate 4096 'x', 7) }
        "date".toList emptyWorld).1 = List.replicate 4096 'x' :=
  (run_capture_returns_stream
    { silentEnv with popen := fun _ => some (List.replicate 4096 'x', 7) }
    "date".toList (List.replicate 4096 'x') 7 emptyWorld rfl).1

/-! ## Trailing newlines of a section -/

theorem trailingNewlines_concat (s : Str) (c : Char) :
    trailingNewlines (s ++ [c]) = if c = '\n' then trailingNewlines s + 1 else 0 := by
  by_cases h : c = '\n' <;> simp [trailingNewlines, List.takeWhile_cons, h]

theorem trailingNewlines_le (s : Str) : trailingNewlines s ≤ s.length := by
  unfold trailingNewlines
  calc (s.reverse.takeWhile (fun c => c == '\n')).length
      ≤ s.reverse.length := (List.takeWhile_sublist _).length_le
    _ = s.length := List.length_reverse s

theorem trailingNewlines_append (x b : Str) (h : trailingNewlines b < b.length) :
    trailingNewlines (x ++ b) = trailingNewlines b := by
  unfold trailingNewlines at h ⊢
  rw [List.reverse_append, List.takeWhile_append]
  rw [List.length_reverse, if_neg (by omega)]

theorem trailingNewlines_pos_of_getLast (b : Str) (h : b.getLast? = some '\n') :
    0 < trailingNewlines b := by
  obtain ⟨ys, rfl⟩ := List.getLast?_eq_some_iff.mp h
  rw [trailingNewlines_concat]
  simp

theorem trailingNewlines_zero_of_getLast (b : Str) (hne : b ≠ [])
    (h : b.getLast? ≠ some '\n') : trailingNewlines b = 0 := by
  rcases List.eq_nil_or_concat b with hb | ⟨ys, c, hb⟩
  · exact absurd hb hne
  · rw [List.concat_eq_append] at hb
    subst hb
    have hc : c ≠ '\n' := by
      intro hc
      apply h
      simp [hc]
    rw [trailingNewlines_concat]
    simp [hc]

theorem trailing_ge_two (T B : Str) : 2 ≤ trailingNewlines (section_text T B) := by
  have key : ∀ x : Str, 2 ≤ trailingNewlines (x ++ "\n\n".toList) := by
    intro x
    have e : x ++ "\n\n".toList = (x ++ ['\n']) ++ ['\n'] := by simp
    rw [e, trailingNewlines_concat, trailingNewlines_concat]
    simp
  by_cases hB : B = []
  · subst hB
    rw [section_text_empty]
    have e : section_header T ++ "(no output)\n\n".toList
        = (section_header T ++ "(no output)".toList) ++ "\n\n".toList := by simp
    rw [e]
    exact key _
  · by_cases hnl : B.getLast? = some '\n'
    · rw [section_text_newline T B hB hnl]
      obtain ⟨ys, rfl⟩ := List.getLast?_eq_some_iff.mp hnl
      have e : section_header T ++ (ys ++ ['\n']) ++ "\n".toList
          = (section_header T ++ ys) ++ "\n\n".toList := by simp
      rw [e]
      exact key _
    · rw [section_text_no_newline T B hB hnl]
      have e : section_header T ++ B ++ "\n\n".toList
          = (section_header T ++ B) ++ "\n\n".toList := by simp
      rw [e]
      exact key _

/-- C10, as the code has it: for a non-empty body the section is the header, the
body verbatim, one newline when the body does not end in one, and one more
newline; it ends in at least two newlines, and when the body holds a character
other than a newline it ends in exactly as many as the larger of two and one more
than the body ends in. -/
theorem section_text_trailing (T B : Str) (hB : B ≠ []) :
    section_text T B
        = section_header T ++ B
            ++ (if B.getLast? = some '\n' then "\n".toList else "\n\n".toList) ∧
    2 ≤ trailingNewlines (section_text T B) ∧
    (trailingNewlines B < B.length →
      trailingNewlines (section_text T B) = max 2 (trailingNewlines B + 1)) := by
  refine ⟨?_, trailing_ge_two T B, ?_⟩
  · by_cases hnl : B.getLast? = some '\n'
    · rw [section_text_newline T B hB hnl, if_pos hnl]
    · rw [section_text_no_newline T B hB hnl, if_neg hnl]
  · intro hlt
    by_cases hnl : B.getLast? = some '\n'
    · rw [section_text_newline T B hB hnl]
      have hpos := trailingNewlines_pos_of_getLast B hnl
      have e : section_header T ++ B ++ "\n".toList = (section_header T ++ B) ++ ['\n'] := by
        simp
      rw [e, trailingNewlines_concat, trailingNewlines_append _ _ hlt]
      simp only [↓reduceIte]
      omega
    · rw [section_text_no_newline T B hB hnl]
      have hz := trailingNewlines_zero_of_getLast B hB hnl
      have e : section_header T ++ B ++ "\n\n".toList
          = ((section_header T ++ B) ++ ['\n']) ++ ['\n'] := by simp
      rw [e, trailingNewlines_concat, trailingNewlines_concat,
        trailingNewlines_append _ _ hlt, hz]
      simp

/-- Witness for C10 as amended: the body `a` followed by two newlines. -/
theorem section_text_trailing_witness :
    trailingNewlines (section_text "T".toList "a\n\n".toList) = max 2 (2 + 1) :=
  (section_text_trailing "T".toList "a\n\n".toList (by decide)).2.2 (by decide)

/-- Counterexample to C10 as stated: the non-empty body `a` followed by two
newlines yields a section that ends in three newlines. -/
theorem section_text_three_newlines :
    "a\n\n".toList ≠ [] ∧
    section_text "T".toList "a\n\n".toList = "T\n=\na\n\n\n".toList ∧
    trailingNewlines (section_text "T".toList "a\n\n".toList) = 3 := by
  decide

/-! ## Facts about `find` -/

theorem find_eq_none_iff (s pat : Str) : find s pat = none ↔ ¬ pat <:+: s := by
  induction s with
  | nil =>
    by_cases h : pat = []
    · subst h
      simp [find]
    · have hp : pat.isPrefixOf ([] : Str) = false := by
        cases pat with
        | nil => exact absurd rfl h
        | cons a l => rfl
      simp [find, hp, h]
  | cons c t ih =>
    by_cases hp : pat.isPrefixOf (c :: t) = true
    · have hpre : pat <+: c :: t := List.isPrefixOf_iff_prefix.mp hp
      simp [find, hp, hpre.isInfix]
    · have hpre : ¬ pat <+: c :: t := fun h => hp (List.isPrefixOf_iff_prefix.mpr h)
      simp only [find, hp, Bool.false_eq_true, ↓reduceIte, Option.map_eq_none', ih,
        List.infix_cons_iff, hpre, false_or]

theorem tool_available_iff (probe : Str) :
    tool_available probe = true ↔ probe ≠ [] ∧ ¬ "not found".toList <:+: probe := by
  unfold tool_available
  rw [Bool.and_eq_true]
  have h1 : (!probe.isEmpty) = true ↔ probe ≠ [] := by
    cases probe <;> simp
  have h2 : (find probe "not found".toList == none) = true
      ↔ ¬ "not found".toList <:+: probe := by
    rw [beq_iff_eq, find_eq_none_iff]
  rw [h1, h2]

/-! ## Facts about `now_stamp` -/

theorem toDigitsCore_small (fuel n : Nat) (ds : List Char) (h : n < 10) :
    Nat.toDigitsCore 10 (fuel + 1) n ds = Nat.digitChar n :: ds := by
  have h1 : n / 10 = 0 := Nat.div_eq_of_lt h
  have h2 : n % 10 = n := Nat.mod_eq_of_lt h
  simp [Nat.toDigitsCore, h1, h2]

theorem toDigitsCore_large (fuel n : Nat) (ds : List Char) (h : 10 ≤ n) :
    Nat.toDigitsCore 10 (fuel + 1) n ds
      = Nat.toDigitsCore 10 fuel (n / 10) (Nat.digitChar (n % 10) :: ds) := by
  have h1 : n / 10 ≠ 0 := by omega
  simp [Nat.toDigitsCore, h1]

theorem toDigits_two (n : Nat) (h : n < 100) :
    Nat.toDigits 10 n
      = if n < 10 then [Nat.digitChar n] else [Nat.digitChar (n / 10), Nat.digitChar (n % 10)] := by
  unfold Nat.toDigits
  by_cases h1 : n < 10
  · rw [toDigitsCore_small _ _ _ h1, if_pos h1]
  · obtain ⟨k, rfl⟩ : ∃ k, n = k + 1 := ⟨n - 1, by omega⟩
    rw [toDigitsCore_large _ _ _ (by omega), toDigitsCore_small _ _ _ (by omega), if_neg h1]

theorem toDigits_four (n : Nat) (h : n < 10000) :
    Nat.toDigits 10 n
      = if n < 10 then [Nat.digitChar n]
        else if n < 100 then [Nat.digitChar (n / 10), Nat.digitChar (n % 10)]
        else if n < 1000 then
          [Nat.digitChar (n / 100), Nat.digitChar (n / 10 % 10), Nat.digitChar (n % 10)]
        else [Nat.digitChar (n / 1000), Nat.digitChar (n / 100 % 10),
              Nat.digitChar (n / 10 % 10), Nat.digitChar (n % 10)] := by
  by_cases h2 : n < 100
  · rw [toDigits_two n h2]
    by_cases h1 : n < 10 <;> simp [h1, h2]
  · unfold Nat.toDigits
    have e1 : n / 10 / 10 = n / 100 := by omega
    have e2 : n / 100 / 10 = n / 1000 := by omega
    obtain ⟨k, rfl⟩ : ∃ k, n = k + 3 := ⟨n - 3, by omega⟩
    by_cases h3 : k + 3 < 1000
    · rw [toDigitsCore_large _ _ _ (by omega), toDigitsCore_large _ _ _ (by omega),
        toDigitsCore_small _ _ _ (by omega), e1]
      have h1 : ¬ k + 3 < 10 := by omega
      simp [h1, h2, h3]
    · rw [toDigitsCore_large _ _ _ (by omega), toDigitsCore_large _ _ _ (by omega),
        toDigitsCore_large _ _ _ (by omega), toDigitsCore_small _ _ _ (by omega), e1, e2]
      have h1 : ¬ k + 3 < 10 := by omega
      simp [h1, h2, h3]

theorem digitChar_zero : Nat.digitChar 0 = '0' := rfl

theorem fmt_d_two (n : Nat) (h : n < 100) :
    fmt_d 2 (n : Int) = [Nat.digitChar (n / 10), Nat.digitChar (n % 10)] := by
  have hneg : ¬ ((n : Int) < 0) := by omega
  simp only [fmt_d, hneg, ↓reduceIte, Int.toNat_ofNat, toDigits_two n h]
  by_cases h1 : n < 10
  · have e1 : n / 10 = 0 := Nat.div_eq_of_lt h1
    have e2 : n % 10 = n := Nat.mod_eq_of_lt h1
    simp [h1, e1, e2, List.replicate, digitChar_zero]
  · simp [h1]

theorem fmt_d_four (n : Nat) (h : n < 10000) :
    fmt_d 4 (n : Int) = [Nat.digitChar (n / 1000), Nat.digitChar (n / 100 % 10),
      Nat.digitChar (n / 10 % 10), Nat.digitChar (n % 10)] := by
  have hneg : ¬ ((n : Int) < 0) := by omega
  simp only [fmt_d, hneg, ↓reduceIte, Int.toNat_ofNat, toDigits_four n h]
  by_cases h1 : n < 10
  · have e1 : n / 1000 = 0 := by omega
    have e2 : n / 100 % 10 = 0 := by omega
    have e3 : n / 10 % 10 = 0 := by omega
    have e4 : n % 10 = n := by omega
    simp [h1, e1, e2, e3, e4, List.replicate, digitChar_zero]
  · by_cases h2 : n < 100
    · have e1 : n / 1000 = 0 := by omega
      have e2 : n / 100 % 10 = 0 := by omega
      have e3 : n / 10 % 10 = n / 10 := by omega
      simp [h1, h2, e1, e2, e3, List.replicate, digitChar_zero]
    · by_cases h3 : n < 1000
      · have e1 : n / 1000 = 0 := by omega
        have e2 : n / 100 % 10 = n / 100 := by omega
        simp [h1, h2, h3, e1, e2, List.replicate, digitChar_zero]
      · simp [h1, h2, h3]

theorem digitChar_isDigit : ∀ a < 10, (Nat.digitChar a).isDigit = true := by decide

theorem digitChar_value : ∀ a < 10, (Nat.digitChar a).toNat - 48 = a := by decide

theorem readNat_two (a b : Nat) (ha : a < 10) (hb : b < 10) :
    readNat [Nat.digitChar a, Nat.digitChar b] = 10 * a + b := by
  simp [readNat, digitChar_value a ha, digitChar_value b hb]

theorem readNat_four (a b c d : Nat) (ha : a < 10) (hb : b < 10) (hc : c < 10) (hd : d < 10) :
    readNat [Nat.digitChar a, Nat.digitChar b, Nat.digitChar c, Nat.digitChar d]
      = 10 * (10 * (10 * a + b) + c) + d := by
  simp [readNat, digitChar_value a ha, digitChar_value b hb, digitChar_value c hc,
    digitChar_value d hd]

/-- The stamp of a time whose fields are the natural numbers `y`, `mo`, `d`, `h`,
`mi`, `s`, digit by digit. -/
theorem now_stamp_digits (tm : Tm) (y mo d h mi s : Nat)
    (hy : tm.tm_year + 1900 = y) (hmo : tm.tm_mon + 1 = mo) (hd : tm.tm_mday = d)
    (hh : tm.tm_hour = h) (hmi : tm.tm_min = mi) (hs : tm.tm_sec = s)
    (by_ : y < 10000) (bmo : mo < 100) (bd : d < 100) (bh : h < 100) (bmi : mi < 100)
    (bs : s < 100) :
    now_stamp tm =
      [Nat.digitChar (y / 1000), Nat.digitChar (y / 100 % 10), Nat.digitChar (y / 10 % 10),
       Nat.digitChar (y % 10), '-', Nat.digitChar (mo / 10), Nat.digitChar (mo % 10), '-',
       Nat.digitChar (d / 10), Nat.digitChar (d % 10), '_',
       Nat.digitChar (h / 10), Nat.digitChar (h % 10), '-',
       Nat.digitChar (mi / 10), Nat.digitChar (mi % 10), '-',
       Nat.digitChar (s / 10), Nat.digitChar (s % 10)] := by
  unfold now_stamp
  rw [hy, hmo, hd, hh, hmi, hs, fmt_d_four y by_, fmt_d_two mo bmo, fmt_d_two d bd,
    fmt_d_two h bh, fmt_d_two mi bmi, fmt_d_two s bs]
  rfl

/-- C9: for a local time with year 0 to 9999, month 1 to 12, day 1 to 31, hour 0
to 23, minute 0 to 59 and second 0 to 60, the stamp has 19 characters, the
separators `-`, `-`, `_`, `-`, `-` at positions 4, 7, 10, 13 and 16, a decimal
digit everywhere else, and its six fields read back as the year, the month, the
day, the hour, the minute and the second. -/
theorem now_stamp_format (tm : Tm)
    (hy : 0 ≤ tm.tm_year + 1900 ∧ tm.tm_year + 1900 ≤ 9999)
    (hmo : 1 ≤ tm.tm_mon + 1 ∧ tm.tm_mon + 1 ≤ 12)
    (hd : 1 ≤ tm.tm_mday ∧ tm.tm_mday ≤ 31)
    (hh : 0 ≤ tm.tm_hour ∧ tm.tm_hour ≤ 23)
    (hmi : 0 ≤ tm.tm_min ∧ tm.tm_min ≤ 59)
    (hs : 0 ≤ tm.tm_sec ∧ tm.tm_sec ≤ 60) :
    (now_stamp tm).length = 19 ∧
    (now_stamp tm)[4]? = some '-' ∧ (now_stamp tm)[7]? = some '-' ∧
    (now_stamp tm)[10]? = some '_' ∧ (now_stamp tm)[13]? = some '-' ∧
    (now_stamp tm)[16]? = some '-' ∧
    (∀ i, i < 19 → i ≠ 4 → i ≠ 7 → i ≠ 10 → i ≠ 13 → i ≠ 16 →
      ∃ c, (now_stamp tm)[i]? = some c ∧ c.isDigit = true) ∧
    (readNat ((now_stamp tm).take 4) : Int) = tm.tm_year + 1900 ∧
    (readNat (((now_stamp tm).drop 5).take 2) : Int) = tm.tm_mon + 1 ∧
    (readNat (((now_stamp tm).drop 8).take 2) : Int) = tm.tm_mday ∧
    (readNat (((now_stamp tm).drop 11).take 2) : Int) = tm.tm_hour ∧
    (readNat (((now_stamp tm).drop 14).take 2) : Int) = tm.tm_min ∧
    (readNat (((now_stamp tm).drop 17).take 2) : Int) = tm.tm_sec := by
  obtain ⟨y, hy'⟩ : ∃ y : Nat, tm.tm_year + 1900 = y := ⟨(tm.tm_year + 1900).toNat, by omega⟩
  obtain ⟨mo, hmo'⟩ : ∃ y : Nat, tm.tm_mon + 1 = y := ⟨(tm.tm_mon + 1).toNat, by omega⟩
  obtain ⟨d, hd'⟩ : ∃ y : Nat, tm.tm_mday = y := ⟨tm.tm_mday.toNat, by omega⟩
  obtain ⟨h, hh'⟩ : ∃ y : Nat, tm.tm_hour = y := ⟨tm.tm_hour.toNat, by omega⟩
  obtain ⟨mi, hmi'⟩ : ∃ y : Nat, tm.tm_min = y := ⟨tm.tm_min.toNat, by omega⟩
  obtain ⟨s, hs'⟩ : ∃ y : Nat, tm.tm_sec = y := ⟨tm.tm_sec.toNat, by omega⟩
  have by_ : y < 10000 := by omega
  have bmo : mo < 100 := by omega
  have bd : d < 100 := by omega
  have bh : h < 100 := by omega
  have bmi : mi < 100 := by omega
  have bs : s < 100 := by omega
  rw [now_stamp_digits tm y mo d h mi s hy' hmo' hd' hh' hmi' hs' by_ bmo bd bh bmi bs,
    hy', hmo', hd', hh', hmi', hs']
  refine ⟨rfl, rfl, rfl, rfl, rfl, rfl, ?_, ?_, ?_, ?_, ?_, ?_, ?_⟩
  · intro i hi h4 h7 h10 h13 h16
    have dig : ∀ a, a < 10 → ∃ c, some (Nat.digitChar a) = some c ∧ c.isDigit = true :=
      fun a ha => ⟨_, rfl, digitChar_isDigit a ha⟩
    interval_cases i
    · exact dig _ (by omega)
    · exact dig _ (by omega)
    · exact dig _ (by omega)
    · exact dig _ (by omega)
    · exact absurd rfl h4
    · exact dig _ (by omega)
    · exact dig _ (by omega)
    · exact absurd rfl h7
    · exact dig _ (by omega)
    · exact dig _ (by omega)
    · exact absurd rfl h10
    · exact dig _ (by omega)
    · exact dig _ (by omega)
    · exact absurd rfl h13
    · exact dig _ (by omega)
    · exact dig _ (by omega)
    · exact absurd rfl h16
    · exact dig _ (by omega)
    · exact dig _ (by omega)
  · have e := readNat_four (y / 1000) (y / 100 % 10) (y / 10 % 10) (y % 10)
      (by omega) (by omega) (by omega) (by omega)
    simp only [List.take_succ_cons, List.take_zero]
    rw [e]
    omega
  · have e := readNat_two (mo / 10) (mo % 10) (by omega) (by omega)
    simp only [List.drop_succ_cons, List.drop_zero, List.take_succ_cons, List.take_zero]
    rw [e]
    omega
  · have e := readNat_two (d / 10) (d % 10) (by omega) (by omega)
    simp only [List.drop_succ_cons, List.drop_zero, List.take_succ_cons, List.take_zero]
    rw [e]
    omega
  · have e := readNat_two (h / 10) (h % 10) (by omega) (by omega)
    simp only [List.drop_succ_cons, List.drop_zero, List.take_succ_cons, List.take_zero]
    rw [e]
    omega
  · have e := readNat_two (mi / 10) (mi % 10) (by omega) (by omega)
    simp only [List.drop_succ_cons, List.drop_zero, List.take_succ_cons, List.take_zero]
    rw [e]
    omega
  · have e := readNat_two (s / 10) (s % 10) (by omega) (by omega)
    simp only [List.drop_succ_cons, List.drop_zero, List.take_succ_cons, List.take_zero]
    rw [e]
    omega

/-- Witness for C9: the stamp of 2024-03-05 07:08:09. -/
theorem now_stamp_format_witness :
    now_stamp sampleTm = "2024-03-05_07-08-09".toList ∧ (now_stamp sampleTm).length = 19 :=
  ⟨by decide,
   (now_stamp_format sampleTm (by decide) (by decide) (by decide) (by decide) (by decide)
      (by decide)).1⟩

/-! ## Paths of the category files -/

theorem path_append_relative (p q : Str) (h : q.head? ≠ some '/') :
    path_append p q = p ++ (if p = [] ∨ p.getLast? = some '/' then [] else ['/']) ++ q := by
  unfold path_append
  rw [if_neg h]
  split <;> simp

theorem path_append_inj (p q₁ q₂ : Str) (h₁ : q₁.head? ≠ some '/') (h₂ : q₂.head? ≠ some '/') :
    path_append p q₁ = path_append p q₂ ↔ q₁ = q₂ := by
  rw [path_append_relative p q₁ h₁, path_append_relative p q₂ h₂]
  simp

/-! ## The blocks of `main`, one by one -/

theorem capture_section_eq (env : Env) (file title cmd : Str) (w : World) :
    capture_section env file title cmd w
      = write_section env file title (captured env cmd)
          (w.record (Event.popen (cmd ++ " 2>&1".toList))) := by
  unfold capture_section
  simp only [run_capture_fst, run_capture_snd]

theorem capture_section_log (env : Env) (file title cmd : Str) (w : World) :
    (capture_section env file title cmd w).log
      = w.log ++ section_events env file title cmd := by
  rw [capture_section_eq]
  simp [write_section, World.appendFile, World.record, section_events]

theorem capture_section_files_other (env : Env) (file title cmd q : Str) (w : World)
    (h : q ≠ file) : (capture_section env file title cmd w).files q = w.files q := by
  rw [capture_section_eq, write_section_files_other _ _ _ _ _ _ h]
  rfl

theorem capture_section_files_same (env : Env) (file title cmd : Str) (w : World)
    (hopen : ∀ l, env.ofstream l file = some none) :
    (capture_section env file title cmd w).files file
      = some ((w.files file).getD [] ++ section_text title (captured env cmd)) := by
  rw [capture_section_eq, write_section_files_same, hopen]
  rfl

theorem capture_section_files_locked (env : Env) (file title cmd : Str) (w : World)
    (hno : ∀ l p, env.ofstream l p = none) :
    (capture_section env file title cmd w).files = w.files := by
  rw [capture_section_eq]
  simp [write_section, World.appendFile, World.record, hno, appended]

theorem write_section_files_open (env : Env) (file title body : Str) (w : World)
    (hopen : ∀ l, env.ofstream l file = some none) :
    (write_section env file title body w).files file
      = some ((w.files file).getD [] ++ section_text title body) := by
  rw [write_section_files_same, hopen]
  rfl

theorem write_section_files_locked (env : Env) (file title body : Str) (w : World)
    (hno : ∀ l p, env.ofstream l p = none) :
    (write_section env file title body w).files = w.files := by
  simp [write_section, World.appendFile, hno, appended]

theorem ensure_clean_file_files_other (env : Env) (p q : Str) (w : World) (h : q ≠ p) :
    (ensure_clean_file env p w).files q = w.files q := by
  simp [ensure_clean_file, World.truncFile, Function.update_noteq h]

theorem ensure_clean_file_files_same (env : Env) (p : Str) (w : World)
    (hopen : ∀ l, env.ofstream l p = some none) :
    (ensure_clean_file env p w).files p = some [] := by
  simp [ensure_clean_file, World.truncFile, hopen, truncated]

theorem ensure_clean_file_files_locked (env : Env) (p : Str) (w : World)
    (hno : ∀ l p, env.ofstream l p = none) :
    (ensure_clean_file env p w).files = w.files := by
  simp [ensure_clean_file, World.truncFile, hno, truncated]

theorem ne_facts {x y : Str} (h : x ≠ y) : (x = y ↔ False) ∧ (y = x ↔ False) :=
  ⟨iff_false_intro h, iff_false_intro (Ne.symm h)⟩

theorem files_in_nodup (dir : Str) : (files_in dir).all.Nodup := by
  simp [Files.all, files_in, path_append_inj]

theorem main_clean_log (env : Env) (fl : Files) (w : World) :
    (main_clean env fl w).log = w.log ++ clean_events fl := by
  simp [main_clean, ensure_clean_file, World.truncFile, clean_events]

theorem main_clean_files_same (env : Env) (fl : Files) (w : World) (hnd : fl.all.Nodup)
    (p : Str) (hp : p ∈ fl.all) (hopen : ∀ l, env.ofstream l p = some none) :
    (main_clean env fl w).files p = some [] := by
  obtain ⟨s, u, c, n, v, a⟩ := fl
  simp only [Files.all, List.nodup_cons, List.mem_cons, List.mem_singleton, not_or,
    List.not_mem_nil, not_false_eq_true, List.nodup_nil, and_true] at hnd
  obtain ⟨⟨h01, h02, h03, h04, h05⟩, ⟨h12, h13, h14, h15⟩, ⟨h23, h24, h25⟩, ⟨h34, h35⟩,
    h45⟩ := hnd
  simp only [Files.all, List.mem_cons, List.mem_singleton, List.not_mem_nil, or_false] at hp
  rcases hp with rfl | rfl | rfl | rfl | rfl | rfl <;>
    simp [main_clean, ensure_clean_file, World.truncFile, Function.update_apply, hopen,
      truncated, (ne_facts h01).1, (ne_facts h01).2, (ne_facts h02).1, (ne_facts h02).2, (ne_facts h03).1, (ne_facts h03).2, (ne_facts h04).1, (ne_facts h04).2, (ne_facts h05).1, (ne_facts h05).2, (ne_facts h12).1, (ne_facts h12).2, (ne_facts h13).1, (ne_facts h13).2, (ne_facts h14).1, (ne_facts h14).2, (ne_facts h15).1, (ne_facts h15).2, (ne_facts h23).1, (ne_facts h23).2, (ne_facts h24).1, (ne_facts h24).2, (ne_facts h25).1, (ne_facts h25).2, (ne_facts h34).1, (ne_facts h34).2, (ne_facts h35).1, (ne_facts h35).2, (ne_facts h45).1, (ne_facts h45).2]

theorem main_clean_files_locked (env : Env) (fl : Files) (w : World)
    (hno : ∀ l p, env.ofstream l p = none) : (main_clean env fl w).files = w.files := by
  simp only [main_clean, ensure_clean_file_files_locked _ _ _ hno]

theorem main_system_log (env : Env) (fl : Files) (w : World) :
    (main_system env fl w).log = w.log ++ system_events env fl := by
  simp only [main_system, capture_section_log, system_events, List.append_assoc]

theorem main_system_files_other (env : Env) (fl : Files) (w : World) (q : Str)
    (h : q ≠ fl.system_txt) : (main_system env fl w).files q = w.files q := by
  simp only [main_system, capture_section_files_other _ _ _ _ _ _ h]

theorem main_system_files_same (env : Env) (fl : Files) (w : World)
    (hopen : ∀ l, env.ofstream l fl.system_txt = some none) :
    (main_system env fl w).files fl.system_txt
      = some ((w.files fl.system_txt).getD [] ++ system_sections env) := by
  simp only [main_system, capture_section_files_same _ _ _ _ _ hopen, Option.getD_some,
    system_sections, List.append_assoc]

theorem main_system_files_locked (env : Env) (fl : Files) (w : World)
    (hno : ∀ l p, env.ofstream l p = none) : (main_system env fl w).files = w.files := by
  simp only [main_system, capture_section_files_locked _ _ _ _ _ hno]

theorem main_users_log (env : Env) (fl : Files) (w : World) :
    (main_users env fl w).log = w.log ++ users_events env fl := by
  simp only [main_users, capture_section_log, users_events, List.append_assoc]

theorem main_users_files_other (env : Env) (fl : Files) (w : World) (q : Str)
    (h : q ≠ fl.users_txt) : (main_users env fl w).files q = w.files q := by
  simp only [main_users, capture_section_files_other _ _ _ _ _ _ h]

theorem main_users_files_same (env : Env) (fl : Files) (w : World)
    (hopen : ∀ l, env.ofstream l fl.users_txt = some none) :
    (main_users env fl w).files fl.users_txt
      = some ((w.files fl.users_txt).getD [] ++ users_sections env) := by
  simp only [main_users, capture_section_files_same _ _ _ _ _ hopen, Option.getD_some,
    users_sections, List.append_assoc]

theorem main_users_files_locked (env : Env) (fl : Files) (w : World)
    (hno : ∀ l p, env.ofstream l p = none) : (main_users env fl w).files = w.files := by
  simp only [main_users, capture_section_files_locked _ _ _ _ _ hno]

theorem main_processes_log (env : Env) (fl : Files) (w : World) :
    (main_processes env fl w).log = w.log ++ proc_events env fl := by
  simp only [main_processes, capture_section_log, proc_events, List.append_assoc]

theorem main_processes_files_other (env : Env) (fl : Files) (w : World) (q : Str)
    (h : q ≠ fl.proc_txt) : (main_processes env fl w).files q = w.files q := by
  simp only [main_processes, capture_section_files_other _ _ _ _ _ _ h]

theorem main_processes_files_same (env : Env) (fl : Files) (w : World)
    (hopen : ∀ l, env.ofstream l fl.proc_txt = some none) :
    (main_processes env fl w).files fl.proc_txt
      = some ((w.files fl.proc_txt).getD [] ++ proc_sections env) := by
  simp only [main_processes, capture_section_files_same _ _ _ _ _ hopen, Option.getD_some,
    proc_sections, List.append_assoc]

theorem main_processes_files_locked (env : Env) (fl : Files) (w : World)
    (hno : ∀ l p, env.ofstream l p = none) : (main_processes env fl w).files = w.files := by
  simp only [main_processes, capture_section_files_locked _ _ _ _ _ hno]

theorem main_network_log (env : Env) (fl : Files) (w : World) :
    (main_network env fl w).log = w.log ++ net_events env fl := by
  unfold main_network net_events tool_available
  simp only [run_capture_fst, run_capture_snd]
  split <;> simp [capture_section_log, World.record]

theorem main_network_files_other (env : Env) (fl : Files) (w : World) (q : Str)
    (h : q ≠ fl.net_txt) : (main_network env fl w).files q = w.files q := by
  unfold main_network
  simp only [run_capture_fst, run_capture_snd]
  split <;> simp only [capture_section_files_other _ _ _ _ _ _ h, World.record]

theorem main_network_files_same (env : Env) (fl : Files) (w : World)
    (hopen : ∀ l, env.ofstream l fl.net_txt = some none) :
    (main_network env fl w).files fl.net_txt
      = some ((w.files fl.net_txt).getD [] ++ net_sections env) := by
  unfold main_network net_sections tool_available
  simp only [run_capture_fst, run_capture_snd]
  split <;>
    simp only [capture_section_files_same _ _ _ _ _ hopen, World.record, Option.getD_some,
      List.append_assoc]

theorem main_network_files_locked (env : Env) (fl : Files) (w : World)
    (hno : ∀ l p, env.ofstream l p = none) : (main_network env fl w).files = w.files := by
  unfold main_network
  simp only [run_capture_fst, run_capture_snd]
  split <;> simp only [capture_section_files_locked _ _ _ _ _ hno, World.record]

theorem main_services_log (env : Env) (fl : Files) (w : World) :
    (main_services env fl w).log = w.log ++ services_events env fl := by
  unfold main_services services_events tool_available
  simp only [run_capture_fst, run_capture_snd]
  split <;> simp [capture_section_log, World.record, write_section_log]

theorem main_services_files_other (env : Env) (fl : Files) (w : World) (q : Str)
    (h : q ≠ fl.services_txt) : (main_services env fl w).files q = w.files q := by
  unfold main_services
  simp only [run_capture_fst, run_capture_snd]
  split <;>
    simp only [capture_section_files_other _ _ _ _ _ _ h,
      write_section_files_other _ _ _ _ _ _ h, World.record]

theorem main_services_files_same (env : Env) (fl : Files) (w : World)
    (hopen : ∀ l, env.ofstream l fl.services_txt = some none) :
    (main_services env fl w).files fl.services_txt
      = some ((w.files fl.services_txt).getD [] ++ services_sections env) := by
  unfold main_services services_sections tool_available
  simp only [run_capture_fst, run_capture_snd]
  split <;>
    simp only [capture_section_files_same _ _ _ _ _ hopen,
      write_section_files_open _ _ _ _ _ hopen, World.record]

theorem main_services_files_locked (env : Env) (fl : Files) (w : World)
    (hno : ∀ l p, env.ofstream l p = none) : (main_services env fl w).files = w.files := by
  unfold main_services
  simp only [run_capture_fst, run_capture_snd]
  split <;>
    simp only [capture_section_files_locked _ _ _ _ _ hno,
      write_section_files_locked _ _ _ _ _ hno, World.record]

theorem main_auth_hints_log (env : Env) (fl : Files) (w : World) :
    (main_auth_hints env fl w).log = w.log ++ auth_events env fl := by
  unfold main_auth_hints auth_events log_found no_auth_section
  generalize env.fs_exists "/var/log/auth.log".toList = r₁
  generalize env.fs_exists "/var/log/secure".toList = r₂
  obtain ⟨a₁, e₁⟩ := r₁
  obtain ⟨a₂, e₂⟩ := r₂
  cases a₁ <;> cases e₁ <;> cases a₂ <;> cases e₂ <;>
    simp [capture_section_log, World.record, write_section, World.appendFile]

theorem main_auth_hints_files_other (env : Env) (fl : Files) (w : World) (q : Str)
    (h : q ≠ fl.auth_txt) : (main_auth_hints env fl w).files q = w.files q := by
  unfold main_auth_hints
  generalize env.fs_exists "/var/log/auth.log".toList = r₁
  generalize env.fs_exists "/var/log/secure".toList = r₂
  obtain ⟨a₁, e₁⟩ := r₁
  obtain ⟨a₂, e₂⟩ := r₂
  cases a₁ <;> cases e₁ <;> cases a₂ <;> cases e₂ <;>
    simp [capture_section_files_other _ _ _ _ _ _ h, write_section_files_other _ _ _ _ _ _ h,
      World.record]

theorem main_auth_hints_files_same (env : Env) (fl : Files) (w : World)
    (hopen : ∀ l, env.ofstream l fl.auth_txt = some none) :
    (main_auth_hints env fl w).files fl.auth_txt
      = some ((w.files fl.auth_txt).getD [] ++ auth_sections env) := by
  unfold main_auth_hints auth_sections log_found auth_log_section secure_section
    no_auth_section
  generalize env.fs_exists "/var/log/auth.log".toList = r₁
  generalize env.fs_exists "/var/log/secure".toList = r₂
  obtain ⟨a₁, e₁⟩ := r₁
  obtain ⟨a₂, e₂⟩ := r₂
  cases a₁ <;> cases e₁ <;> cases a₂ <;> cases e₂ <;>
    simp [capture_section_files_same _ _ _ _ _ hopen, write_section_files_open _ _ _ _ _ hopen,
      World.record]

theorem main_auth_hints_files_locked (env : Env) (fl : Files) (w : World)
    (hno : ∀ l p, env.ofstream l p = none) : (main_auth_hints env fl w).files = w.files := by
  unfold main_auth_hints
  generalize env.fs_exists "/var/log/auth.log".toList = r₁
  generalize env.fs_exists "/var/log/secure".toList = r₂
  obtain ⟨a₁, e₁⟩ := r₁
  obtain ⟨a₂, e₂⟩ := r₂
  cases a₁ <;> cases e₁ <;> cases a₂ <;> cases e₂ <;>
    simp [capture_section_files_locked _ _ _ _ _ hno, write_section_files_locked _ _ _ _ _ hno,
      World.record]

/-! ## The whole run -/

theorem main_of_error (env : Env) (w : World) (msg : Str)
    (h : env.create_directories (out_dir env) = some msg) :
    (main env w).1 = 1 ∧ (main env w).2.files = w.files
      ∧ (main env w).2.log = w.log ++ [Event.mkdir (out_dir env)] := by
  unfold main
  simp only [h]
  exact ⟨trivial, rfl, rfl⟩

theorem main_exit_of_created (env : Env) (w : World)
    (h : env.create_directories (out_dir env) = none) : (main env w).1 = 0 := by
  unfold main
  simp only [h]

theorem main_log_of_created (env : Env) (w : World)
    (h : env.create_directories (out_dir env) = none) :
    (main env w).2.log = w.log ++ run_events env := by
  unfold main
  simp only [h, main_summary, main_auth_hints_log, main_services_log, main_network_log,
    main_processes_log, main_users_log, main_system_log, main_clean_log, World.record,
    run_events, List.append_assoc, List.singleton_append, List.cons_append, List.nil_append]

theorem main_files_of_locked (env : Env) (w : World)
    (h : env.create_directories (out_dir env) = none)
    (hno : ∀ l p, env.ofstream l p = none) :
    (main env w).1 = 0 ∧ (main env w).2.files = w.files := by
  refine ⟨main_exit_of_created env w h, ?_⟩
  unfold main
  simp only [h, main_summary, main_auth_hints_files_locked _ _ _ hno,
    main_services_files_locked _ _ _ hno, main_network_files_locked _ _ _ hno,
    main_processes_files_locked _ _ _ hno, main_users_files_locked _ _ _ hno,
    main_system_files_locked _ _ _ hno, main_clean_files_locked _ _ _ hno, World.record]

theorem main_files_of_created (env : Env) (w : World)
    (h : env.create_directories (out_dir env) = none) :
    ((∀ l, env.ofstream l (files_in (out_dir env)).system_txt = some none) →
      (main env w).2.files (files_in (out_dir env)).system_txt
        = some (system_sections env)) ∧
    ((∀ l, env.ofstream l (files_in (out_dir env)).users_txt = some none) →
      (main env w).2.files (files_in (out_dir env)).users_txt = some (users_sections env)) ∧
    ((∀ l, env.ofstream l (files_in (out_dir env)).proc_txt = some none) →
      (main env w).2.files (files_in (out_dir env)).proc_txt = some (proc_sections env)) ∧
    ((∀ l, env.ofstream l (files_in (out_dir env)).net_txt = some none) →
      (main env w).2.files (files_in (out_dir env)).net_txt = some (net_sections env)) ∧
    ((∀ l, env.ofstream l (files_in (out_dir env)).services_txt = some none) →
      (main env w).2.files (files_in (out_dir env)).services_txt
        = some (services_sections env)) ∧
    ((∀ l, env.ofstream l (files_in (out_dir env)).auth_txt = some none) →
      (main env w).2.files (files_in (out_dir env)).auth_txt = some (auth_sections env)) := by
  have hnd := files_in_nodup (out_dir env)
  have hclean := main_clean_files_same env (files_in (out_dir env)) (w.record
    (Event.mkdir (out_dir env))) hnd
  unfold main
  simp only [h, main_summary]
  generalize files_in (out_dir env) = fl at hnd hclean ⊢
  generalize w.record (Event.mkdir (out_dir env)) = w₀ at hclean ⊢
  have hmem : ∀ q, q ∈ fl.all ↔ q = fl.system_txt ∨ q = fl.users_txt ∨ q = fl.proc_txt
      ∨ q = fl.net_txt ∨ q = fl.services_txt ∨ q = fl.auth_txt := by
    intro q
    simp [Files.all]
  simp only [Files.all, List.nodup_cons, List.mem_cons, List.mem_singleton, not_or,
    List.not_mem_nil, not_false_eq_true, List.nodup_nil, and_true] at hnd
  obtain ⟨⟨h01, h02, h03, h04, h05⟩, ⟨h12, h13, h14, h15⟩, ⟨h23, h24, h25⟩, ⟨h34, h35⟩,
    h45⟩ := hnd
  refine ⟨?_, ?_, ?_, ?_, ?_, ?_⟩ <;> intro hopen
  · rw [main_auth_hints_files_other _ _ _ _ h05, main_services_files_other _ _ _ _ h04,
      main_network_files_other _ _ _ _ h03, main_processes_files_other _ _ _ _ h02,
      main_users_files_other _ _ _ _ h01, main_system_files_same _ _ _ hopen,
      hclean _ ((hmem _).mpr (Or.inl rfl)) hopen]
    rfl
  · rw [main_auth_hints_files_other _ _ _ _ h15, main_services_files_other _ _ _ _ h14,
      main_network_files_other _ _ _ _ h13, main_processes_files_other _ _ _ _ h12,
      main_users_files_same _ _ _ hopen,
      main_system_files_other _ _ _ _ (Ne.symm h01),
      hclean _ ((hmem _).mpr (Or.inr (Or.inl rfl))) hopen]
    rfl
  · rw [main_auth_hints_files_other _ _ _ _ h25, main_services_files_other _ _ _ _ h24,
      main_network_files_other _ _ _ _ h23, main_processes_files_same _ _ _ hopen,
      main_users_files_other _ _ _ _ (Ne.symm h12),
      main_system_files_other _ _ _ _ (Ne.symm h02),
      hclean _ ((hmem _).mpr (Or.inr (Or.inr (Or.inl rfl)))) hopen]
    rfl
  · rw [main_auth_hints_files_other _ _ _ _ h35, main_services_files_other _ _ _ _ h34,
      main_network_files_same _ _ _ hopen,
      main_processes_files_other _ _ _ _ (Ne.symm h23),
      main_users_files_other _ _ _ _ (Ne.symm h13),
      main_system_files_other _ _ _ _ (Ne.symm h03),
      hclean _ ((hmem _).mpr (Or.inr (Or.inr (Or.inr (Or.inl rfl))))) hopen]
    rfl
  · rw [main_auth_hints_files_other _ _ _ _ h45, main_services_files_same _ _ _ hopen,
      main_network_files_other _ _ _ _ (Ne.symm h34),
      main_processes_files_other _ _ _ _ (Ne.symm h24),
      main_users_files_other _ _ _ _ (Ne.symm h14),
      main_system_files_other _ _ _ _ (Ne.symm h04),
      hclean _ ((hmem _).mpr (Or.inr (Or.inr (Or.inr (Or.inr (Or.inl rfl)))))) hopen]
    rfl
  · rw [main_auth_hints_files_same _ _ _ hopen,
      main_services_files_other _ _ _ _ (Ne.symm h45),
      main_network_files_other _ _ _ _ (Ne.symm h35),
      main_processes_files_other _ _ _ _ (Ne.symm h25),
      main_users_files_other _ _ _ _ (Ne.symm h15),
      main_system_files_other _ _ _ _ (Ne.symm h05),
      hclean _ ((hmem _).mpr (Or.inr (Or.inr (Or.inr (Or.inr (Or.inr rfl)))))) hopen]
    rfl

theorem commands_run_append (l₁ l₂ : List Event) :
    commands_run (l₁ ++ l₂) = commands_run l₁ ++ commands_run l₂ := by
  simp [commands_run, List.filterMap_append]

theorem sections_written_append (l₁ l₂ : List Event) (p : Str) :
    sections_written (l₁ ++ l₂) p = sections_written l₁ p ++ sections_written l₂ p := by
  simp [sections_written, List.filterMap_append]

theorem sections_written_ite (c : Prop) [Decidable c] (l₁ l₂ : List Event) (p : Str) :
    sections_written (if c then l₁ else l₂) p
      = if c then sections_written l₁ p else sections_written l₂ p := by
  split <;> rfl

theorem sections_written_section_events (env : Env) (file title cmd p : Str) :
    sections_written (section_events env file title cmd) p
      = if file = p then [section_text title (captured env cmd)] else [] := by
  by_cases h : file = p <;> simp [sections_written, section_events, h]

theorem commands_run_run_events (env : Env) :
    commands_run (run_events env)
      = ["date 2>&1".toList, "hostname 2>&1".toList, "uptime 2>&1".toList,
          "uname -a 2>&1".toList, "who 2>&1".toList, "last -n 20 2>&1".toList,
          "id 2>&1".toList, "ps aux --sort=-%cpu | head -n 25 2>&1".toList,
          "ps aux --sort=-%mem | head -n 25 2>&1".toList, "command -v ss 2>&1".toList]
        ++ (if tool_available (captured env "command -v ss".toList)
            then ["ss -lntup 2>&1".toList, "ss -ntup 2>&1".toList]
            else ["netstat -lntup 2>&1".toList, "netstat -ntup 2>&1".toList])
        ++ ["command -v systemctl 2>&1".toList]
        ++ (if tool_available (captured env "command -v systemctl".toList)
            then ["systemctl list-units --type=service --state=running --no-pager 2>&1".toList]
            else [])
        ++ (if log_found env "/var/log/auth.log".toList
            then ["tail -n 50 /var/log/auth.log 2>&1".toList] else [])
        ++ (if log_found env "/var/log/secure".toList
            then ["tail -n 50 /var/log/secure 2>&1".toList] else []) := by
  unfold run_events clean_events system_events users_events proc_events net_events
    services_events auth_events section_events
  cases tool_available (captured env "command -v ss".toList) <;>
  cases tool_available (captured env "command -v systemctl".toList) <;>
  cases log_found env "/var/log/auth.log".toList <;>
  cases log_found env "/var/log/secure".toList <;>
    simp [commands_run]

theorem sections_written_blocks (env : Env) (fl : Files) (hnd : fl.all.Nodup) :
    sections_written (clean_events fl ++ system_events env fl ++ users_events env fl
        ++ proc_events env fl ++ net_events env fl ++ services_events env fl
        ++ auth_events env fl) fl.system_txt
      = [section_text "Date".toList (captured env "date".toList),
         section_text "Hostname".toList (captured env "hostname".toList),
         section_text "Uptime".toList (captured env "uptime".toList),
         section_text "Kernel/OS".toList (captured env "uname -a".toList)] ∧
    sections_written (clean_events fl ++ system_events env fl ++ users_events env fl
        ++ proc_events env fl ++ net_events env fl ++ services_events env fl
        ++ auth_events env fl) fl.users_txt
      = [section_text "Logged in users (who)".toList (captured env "who".toList),
         section_text "Recent logins (last -n 20)".toList (captured env "last -n 20".toList),
         section_text "Current user (id)".toList (captured env "id".toList)] ∧
    sections_written (clean_events fl ++ system_events env fl ++ users_events env fl
        ++ proc_events env fl ++ net_events env fl ++ services_events env fl
        ++ auth_events env fl) fl.proc_txt
      = [section_text "Top CPU processes (ps aux --sort=-%cpu | head -n 25)".toList
           (captured env "ps aux --sort=-%cpu | head -n 25".toList),
         section_text "Top MEM processes (ps aux --sort=-%mem | head -n 25)".toList
           (captured env "ps aux --sort=-%mem | head -n 25".toList)] ∧
    sections_written (clean_events fl ++ system_events env fl ++ users_events env fl
        ++ proc_events env fl ++ net_events env fl ++ services_events env fl
        ++ auth_events env fl) fl.net_txt
      = (if tool_available (captured env "command -v ss".toList) then
          [section_text "Listening sockets (ss -lntup)".toList
             (captured env "ss -lntup".toList),
           section_text "Active connections (ss -ntup)".toList
             (captured env "ss -ntup".toList)]
         else
          [section_text "Listening sockets (netstat -lntup)".toList
             (captured env "netstat -lntup".toList),
           section_text "Active connections (netstat -ntup)".toList
             (captured env "netstat -ntup".toList)]) ∧
    sections_written (clean_events fl ++ system_events env fl ++ users_events env fl
        ++ proc_events env fl ++ net_events env fl ++ services_events env fl
        ++ auth_events env fl) fl.auth_txt
      = (if log_found env "/var/log/auth.log".toList then [auth_log_section env] else [])
        ++ (if log_found env "/var/log/secure".toList then [secure_section env] else [])
        ++ (if !log_found env "/var/log/auth.log".toList
              && !log_found env "/var/log/secure".toList then [no_auth_section] else []) := by
  obtain ⟨s, u, p, n, v, a⟩ := fl
  simp only [Files.all, List.nodup_cons, List.mem_cons, List.mem_singleton, not_or,
    List.not_mem_nil, not_false_eq_true, List.nodup_nil, and_true] at hnd
  obtain ⟨⟨h01, h02, h03, h04, h05⟩, ⟨h12, h13, h14, h15⟩, ⟨h23, h24, h25⟩, ⟨h34, h35⟩,
    h45⟩ := hnd
  have hcons : ∀ (e : Event) (l : List Event) (q : Str), (∀ f d, e ≠ Event.append f d) →
      sections_written (e :: l) q = sections_written l q := by
    intro e l q he
    cases e <;> simp [sections_written] at he ⊢
  have happ : ∀ (f d : Str) (l : List Event) (q : Str),
      sections_written (Event.append f d :: l) q
        = (if f = q then [d] else []) ++ sections_written l q := by
    intro f d l q
    by_cases hfq : f = q <;> simp [sections_written, hfq]
  have hnil : ∀ q : Str, sections_written [] q = [] := fun _ => rfl
  refine ⟨?_, ?_, ?_, ?_, ?_⟩ <;>
    simp [clean_events, system_events, users_events, proc_events, net_events,
      services_events, auth_events, auth_log_section, secure_section,
      sections_written_append, sections_written_ite, sections_written_section_events,
      hcons, happ, hnil, (ne_facts h01).1, (ne_facts h01).2, (ne_facts h02).1, (ne_facts h02).2, (ne_facts h03).1, (ne_facts h03).2, (ne_facts h04).1, (ne_facts h04).2, (ne_facts h05).1, (ne_facts h05).2, (ne_facts h12).1, (ne_facts h12).2, (ne_facts h13).1, (ne_facts h13).2, (ne_facts h14).1, (ne_facts h14).2, (ne_facts h15).1, (ne_facts h15).2, (ne_facts h23).1, (ne_facts h23).2, (ne_facts h24).1, (ne_facts h24).2, (ne_facts h25).1, (ne_facts h25).2, (ne_facts h34).1, (ne_facts h34).2, (ne_facts h35).1, (ne_facts h35).2, (ne_facts h45).1, (ne_facts h45).2]


theorem main_log_split (env : Env) (w : World)
    (h : env.create_directories (out_dir env) = none) (p : Str) :
    sections_written (main env w).2.log p
      = sections_written w.log p
        ++ sections_written (clean_events (files_in (out_dir env))
            ++ system_events env (files_in (out_dir env))
            ++ users_events env (files_in (out_dir env))
            ++ proc_events env (files_in (out_dir env))
            ++ net_events env (files_in (out_dir env))
            ++ services_events env (files_in (out_dir env))
            ++ auth_events env (files_in (out_dir env))) p := by
  rw [main_log_of_created env w h, sections_written_append]
  congr 1

theorem captured_silent (c : Str) : captured silentEnv c = [] :=
  captured_of_popen silentEnv c [] 0 rfl

theorem captured_locked (c : Str) : captured lockedEnv c = [] :=
  captured_of_popen lockedEnv c [] 0 rfl

theorem captured_echo (c : Str) : captured echoEnv c = c ++ " 2>&1".toList :=
  captured_of_popen echoEnv c _ 0 rfl

theorem captured_debian (c : Str) : captured debianEnv c = c ++ " 2>&1".toList :=
  captured_of_popen debianEnv c _ 0 rfl

theorem captured_update_ne (env : Env) (k c : Str) (r : Option (Str × Int))
    (hne : c ++ " 2>&1".toList ≠ k) :
    captured { env with popen := Function.update env.popen k r } c = captured env c := by
  unfold captured run_capture
  dsimp only
  rw [Function.update_noteq hne]

theorem section_text_starts (T B rest : Str) : starts_with_section (section_text T B ++ rest) := by
  by_cases hB : B = []
  · subst hB
    refine ⟨T, "(no output)\n".toList, rest, by decide, by decide, ?_⟩
    rw [section_text_empty]
    simp [section_header]
  · by_cases hnl : B.getLast? = some '\n'
    · refine ⟨T, B, rest, hB, hnl, ?_⟩
      rw [section_text_newline T B hB hnl]
      simp [section_header]
    · refine ⟨T, B ++ "\n".toList, rest, by simp, by simp, ?_⟩
      rw [section_text_no_newline T B hB hnl]
      simp [section_header]

theorem section_text_ne_nil (T B : Str) : section_text T B ≠ [] := by
  unfold section_text
  split <;> simp

theorem tool_available_eq_false_iff (probe : Str) :
    tool_available probe = false ↔ probe = [] ∨ "not found".toList <:+: probe := by
  rw [← Bool.not_eq_true, tool_available_iff]
  by_cases h : probe = [] <;> simp [h]


/-! ## A probe output changes nothing but the branch -/

theorem capture_section_congr (env : Env) (k : Str) (r : Option (Str × Int))
    (file title cmd : Str) (w : World) (hne : cmd ++ " 2>&1".toList ≠ k) :
    capture_section { env with popen := Function.update env.popen k r } file title cmd w
      = capture_section env file title cmd w := by
  rw [capture_section_eq, capture_section_eq, captured_update_ne env k cmd r hne]
  rfl

theorem main_system_congr (env : Env) (r : Option (Str × Int)) (fl : Files) (w : World) :
    main_system { env with popen := Function.update env.popen "command -v ss 2>&1".toList r } fl w = main_system env fl w := by
  unfold main_system
  simp only [capture_section_congr env "command -v ss 2>&1".toList r _ _ "date".toList _ (by decide),
    capture_section_congr env "command -v ss 2>&1".toList r _ _ "hostname".toList _ (by decide),
    capture_section_congr env "command -v ss 2>&1".toList r _ _ "uptime".toList _ (by decide),
    capture_section_congr env "command -v ss 2>&1".toList r _ _ "uname -a".toList _ (by decide)]

theorem main_users_congr (env : Env) (r : Option (Str × Int)) (fl : Files) (w : World) :
    main_users { env with popen := Function.update env.popen "command -v ss 2>&1".toList r } fl w = main_users env fl w := by
  unfold main_users
  simp only [capture_section_congr env "command -v ss 2>&1".toList r _ _ "who".toList _ (by decide),
    capture_section_congr env "command -v ss 2>&1".toList r _ _ "last -n 20".toList _ (by decide),
    capture_section_congr env "command -v ss 2>&1".toList r _ _ "id".toList _ (by decide)]

theorem main_processes_congr (env : Env) (r : Option (Str × Int)) (fl : Files) (w : World) :
    main_processes { env with popen := Function.update env.popen "command -v ss 2>&1".toList r } fl w = main_processes env fl w := by
  unfold main_processes
  simp only [capture_section_congr env "command -v ss 2>&1".toList r _ _ "ps aux --sort=-%cpu | head -n 25".toList _
      (by decide),
    capture_section_congr env "command -v ss 2>&1".toList r _ _ "ps aux --sort=-%mem | head -n 25".toList _
      (by decide)]

theorem main_network_eq (env : Env) (fl : Files) (w : World) :
    main_network env fl w
      = if tool_available (captured env "command -v ss".toList) then
          capture_section env fl.net_txt "Active connections (ss -ntup)".toList
            "ss -ntup".toList
            (capture_section env fl.net_txt "Listening sockets (ss -lntup)".toList
              "ss -lntup".toList (w.record (Event.popen "command -v ss 2>&1".toList)))
        else
          capture_section env fl.net_txt "Active connections (netstat -ntup)".toList
            "netstat -ntup".toList
            (capture_section env fl.net_txt "Listening sockets (netstat -lntup)".toList
              "netstat -lntup".toList (w.record (Event.popen "command -v ss 2>&1".toList))) := by
  unfold main_network tool_available
  simp only [run_capture_fst, run_capture_snd]
  rfl

theorem main_network_congr (env : Env) (r : Option (Str × Int)) (fl : Files) (w : World)
    (hta : tool_available (captured { env with popen := Function.update env.popen "command -v ss 2>&1".toList r } "command -v ss".toList)
      = tool_available (captured env "command -v ss".toList)) :
    main_network { env with popen := Function.update env.popen "command -v ss 2>&1".toList r } fl w = main_network env fl w := by
  rw [main_network_eq, main_network_eq, hta,
    capture_section_congr env _ r _ _ "ss -lntup".toList _ (by decide),
    capture_section_congr env _ r _ _ "ss -ntup".toList _ (by decide),
    capture_section_congr env _ r _ _ "netstat -lntup".toList _ (by decide),
    capture_section_congr env _ r _ _ "netstat -ntup".toList _ (by decide)]

theorem main_services_congr (env : Env) (r : Option (Str × Int)) (fl : Files) (w : World) :
    main_services { env with popen := Function.update env.popen "command -v ss 2>&1".toList r } fl w = main_services env fl w := by
  unfold main_services
  simp only [run_capture_fst, run_capture_snd]
  rw [captured_update_ne env _ "command -v systemctl".toList r (by decide),
    capture_section_congr env _ r _ _
      "systemctl list-units --type=service --state=running --no-pager".toList _ (by decide)]
  rfl

theorem main_auth_hints_congr (env : Env) (r : Option (Str × Int)) (fl : Files) (w : World) :
    main_auth_hints { env with popen := Function.update env.popen "command -v ss 2>&1".toList r } fl w = main_auth_hints env fl w := by
  unfold main_auth_hints
  simp only [capture_section_congr env "command -v ss 2>&1".toList r _ _ "tail -n 50 /var/log/auth.log".toList _
      (by decide),
    capture_section_congr env "command -v ss 2>&1".toList r _ _ "tail -n 50 /var/log/secure".toList _ (by decide)]
  rfl

theorem main_congr_ss_probe (env : Env) (r : Option (Str × Int)) (w : World)
    (hta : tool_available (captured { env with popen := Function.update env.popen "command -v ss 2>&1".toList r } "command -v ss".toList)
      = tool_available (captured env "command -v ss".toList)) :
    main { env with popen := Function.update env.popen "command -v ss 2>&1".toList r } w = main env w := by
  unfold main
  simp only [main_system_congr, main_users_congr, main_processes_congr,
    main_network_congr env r _ _ hta, main_services_congr, main_auth_hints_congr]
  rfl

/-! ## The claims on `main` -/

/-- C7, as the code has it: after a run in which the directory is created, the
run hands to the streams on `system.txt` exactly the sections `Date`,
`Hostname`, `Uptime`, `Kernel/OS` with the outputs of `date`, `hostname`,
`uptime`, `uname -a`, in this order, to those on `users.txt` the three sections
on `who`, `last -n 20`, `id`, and to those on `processes.txt` the section on the
CPU-sorted and then the one on the MEM-sorted `ps`; and each of these files
whose streams all open and deliver what they are given holds exactly its
sections, in this order, whatever it held before. -/
theorem fixed_category_contents (env : Env) (w : World)
    (h : env.create_directories (out_dir env) = none) :
    ((∀ l, env.ofstream l (files_in (out_dir env)).system_txt = some none) →
      (main env w).2.files (files_in (out_dir env)).system_txt
        = some (section_text "Date".toList (captured env "date".toList)
            ++ section_text "Hostname".toList (captured env "hostname".toList)
            ++ section_text "Uptime".toList (captured env "uptime".toList)
            ++ section_text "Kernel/OS".toList (captured env "uname -a".toList))) ∧
    ((∀ l, env.ofstream l (files_in (out_dir env)).users_txt = some none) →
      (main env w).2.files (files_in (out_dir env)).users_txt
        = some (section_text "Logged in users (who)".toList (captured env "who".toList)
            ++ section_text "Recent logins (last -n 20)".toList
                (captured env "last -n 20".toList)
            ++ section_text "Current user (id)".toList (captured env "id".toList))) ∧
    ((∀ l, env.ofstream l (files_in (out_dir env)).proc_txt = some none) →
      (main env w).2.files (files_in (out_dir env)).proc_txt
        = some (section_text "Top CPU processes (ps aux --sort=-%cpu | head -n 25)".toList
                (captured env "ps aux --sort=-%cpu | head -n 25".toList)
            ++ section_text "Top MEM processes (ps aux --sort=-%mem | head -n 25)".toList
                (captured env "ps aux --sort=-%mem | head -n 25".toList))) ∧
    sections_written (main env w).2.log (files_in (out_dir env)).system_txt
      = sections_written w.log (files_in (out_dir env)).system_txt
        ++ [section_text "Date".toList (captured env "date".toList),
            section_text "Hostname".toList (captured env "hostname".toList),
            section_text "Uptime".toList (captured env "uptime".toList),
            section_text "Kernel/OS".toList (captured env "uname -a".toList)] ∧
    sections_written (main env w).2.log (files_in (out_dir env)).users_txt
      = sections_written w.log (files_in (out_dir env)).users_txt
        ++ [section_text "Logged in users (who)".toList (captured env "who".toList),
            section_text "Recent logins (last -n 20)".toList
              (captured env "last -n 20".toList),
            section_text "Current user (id)".toList (captured env "id".toList)] ∧
    sections_written (main env w).2.log (files_in (out_dir env)).proc_txt
      = sections_written w.log (files_in (out_dir env)).proc_txt
        ++ [section_text "Top CPU processes (ps aux --sort=-%cpu | head -n 25)".toList
              (captured env "ps aux --sort=-%cpu | head -n 25".toList),
            section_text "Top MEM processes (ps aux --sort=-%mem | head -n 25)".toList
              (captured env "ps aux --sort=-%mem | head -n 25".toList)] := by
  obtain ⟨f1, f2, f3, _, _, _⟩ := main_files_of_created env w h
  obtain ⟨l1, l2, l3, _, _⟩ :=
    sections_written_blocks env (files_in (out_dir env)) (files_in_nodup (out_dir env))
  refine ⟨f1, f2, f3, ?_, ?_, ?_⟩
  · rw [main_log_split env w h, l1]
  · rw [main_log_split env w h, l2]
  · rw [main_log_split env w h, l3]

/-- Witness for C7: a run on a host whose commands print their own command
line and whose streams open, over files that held `old\n`. -/
theorem fixed_category_contents_witness :
    (files_in (out_dir echoEnv)).system_txt
      = "/tmp/incident-snapshot-2024-03-05_07-08-09/system.txt".toList ∧
    (main echoEnv oldWorld).2.files (files_in (out_dir echoEnv)).system_txt
      = some "Date\n====\ndate 2>&1\n\nHostname\n========\nhostname 2>&1\n\nUptime\n======\nuptime 2>&1\n\nKernel/OS\n=========\nuname -a 2>&1\n\n".toList :=
  ⟨by decide,
   ((fixed_category_contents echoEnv oldWorld rfl).1 (fun _ => rfl)).trans
     (by simp only [captured_echo]; decide)⟩

/-- Counterexample to C7 as stated: on a host where the directory is created and
no file opens for writing, the run ends with exit code 0 and `system.txt` still
holds its previous content `old\n`. -/
theorem system_file_keeps_old_content :
    lockedEnv.create_directories (out_dir lockedEnv) = none ∧
    (main lockedEnv oldWorld).1 = 0 ∧
    (main lockedEnv oldWorld).2.files (files_in (out_dir lockedEnv)).system_txt
      = some "old\n".toList :=
  ⟨rfl, (main_files_of_locked lockedEnv oldWorld rfl (fun _ _ => rfl)).1, by
    rw [(main_files_of_locked lockedEnv oldWorld rfl (fun _ _ => rfl)).2]
    rfl⟩

/-- C5: when creating the output directory reports an error, `main` returns 1,
leaves every file as it was and does nothing beyond the attempt to create the
directory (no file opened, no section written, no command run); when it reports
no error `main` returns 0, so that 1 is returned in the first case only. -/
theorem directory_failure (env : Env) (w : World) :
    (∀ msg, env.create_directories (out_dir env) = some msg →
      (main env w).1 = 1 ∧ (main env w).2.files = w.files ∧
      (main env w).2.log = w.log ++ [Event.mkdir (out_dir env)]) ∧
    (env.create_directories (out_dir env) = none → (main env w).1 = 0) ∧
    ((main env w).1 = 1 ↔ env.create_directories (out_dir env) ≠ none) := by
  refine ⟨fun msg hm => main_of_error env w msg hm, main_exit_of_created env w, ?_⟩
  cases hc : env.create_directories (out_dir env) with
  | none => simp [main_exit_of_created env w hc]
  | some msg => simp [(main_of_error env w msg hc).1]

/-- Witness for C5: a host on which the directory cannot be created. -/
theorem directory_failure_witness :
    (main readOnlyEnv oldWorld).1 = 1 ∧
    (main readOnlyEnv oldWorld).2.files = oldWorld.files ∧
    (main readOnlyEnv oldWorld).2.log = oldWorld.log ++ [Event.mkdir (out_dir readOnlyEnv)] :=
  (directory_failure readOnlyEnv oldWorld).1 "Permission denied".toList rfl

/-- C6, as the code has it: after a run in which the directory is created, each
of the six category files whose streams all open and deliver what they are
given exists, is not empty and opens with a complete section, whatever the
commands print and whatever the existence checks report. -/
theorem category_files_nonempty (env : Env) (w : World)
    (h : env.create_directories (out_dir env) = none) :
    ∀ p ∈ (files_in (out_dir env)).all, (∀ l, env.ofstream l p = some none) →
      ∃ content, (main env w).2.files p = some content ∧ content ≠ [] ∧
        starts_with_section content := by
  obtain ⟨f1, f2, f3, f4, f5, f6⟩ := main_files_of_created env w h
  have key : ∀ T B rest : Str, section_text T B ++ rest ≠ [] ∧
      starts_with_section (section_text T B ++ rest) := fun T B rest =>
    ⟨by simp [section_text_ne_nil], section_text_starts T B rest⟩
  have key' : ∀ T B : Str, section_text T B ≠ [] ∧ starts_with_section (section_text T B) := by
    intro T B
    have := key T B []
    simpa using this
  intro p hp hopen
  simp only [Files.all, List.mem_cons, List.mem_singleton, List.not_mem_nil, or_false] at hp
  rcases hp with rfl | rfl | rfl | rfl | rfl | rfl
  · refine ⟨_, f1 hopen, ?_⟩
    simp only [system_sections, List.append_assoc]
    exact key _ _ _
  · refine ⟨_, f2 hopen, ?_⟩
    simp only [users_sections, List.append_assoc]
    exact key _ _ _
  · refine ⟨_, f3 hopen, ?_⟩
    simp only [proc_sections]
    exact key _ _ _
  · refine ⟨_, f4 hopen, ?_⟩
    unfold net_sections
    split <;> exact key _ _ _
  · refine ⟨_, f5 hopen, ?_⟩
    unfold services_sections
    split <;> exact key' _ _
  · refine ⟨_, f6 hopen, ?_⟩
    unfold auth_sections auth_log_section secure_section no_auth_section
    cases log_found env "/var/log/auth.log".toList <;>
      cases log_found env "/var/log/secure".toList <;>
      simp only [↓reduceIte, Bool.not_true, Bool.not_false, Bool.and_true, Bool.and_false,
        Bool.and_self, Bool.false_eq_true, List.append_nil, List.nil_append]
    · exact key' _ _
    · exact key' _ _
    · exact key' _ _
    · exact key _ _ _

/-- Witness for C6: on a host whose commands print nothing, that has no log file
and whose streams open, `auth_hints.txt` holds the section `Auth logs`. -/
theorem category_files_nonempty_witness :
    ∃ content, (main silentEnv oldWorld).2.files (files_in (out_dir silentEnv)).auth_txt
        = some content ∧ content ≠ [] ∧ starts_with_section content :=
  category_files_nonempty silentEnv oldWorld rfl _ (by simp [Files.all]) (fun _ => rfl)

/-- Counterexample to C6 as stated: on a host where the directory is created and
no file opens for writing, the run ends with exit code 0 and leaves no
`services.txt` at all. -/
theorem category_file_absent :
    lockedEnv.create_directories (out_dir lockedEnv) = none ∧
    (main lockedEnv emptyWorld).1 = 0 ∧
    (main lockedEnv emptyWorld).2.files (files_in (out_dir lockedEnv)).services_txt = none :=
  ⟨rfl, (main_files_of_locked lockedEnv emptyWorld rfl (fun _ _ => rfl)).1, by
    rw [(main_files_of_locked lockedEnv emptyWorld rfl (fun _ _ => rfl)).2]
    rfl⟩

/-- C3, as the code has it: after a run in which the directory is created, when
the output of the probe `command -v ss` is empty or contains `not found`, the
run hands to the streams on `network.txt` exactly the two sections titled with
the `netstat` commands, with the outputs of these commands, and runs no command
line starting with `ss`; otherwise it hands them exactly the two sections
titled with the `ss` commands. When the streams on `network.txt` all open and
deliver what they are given, the file holds exactly these two sections. The
output of the probe reaches no file: replacing it by any other output that
takes the same branch leaves every file of the run unchanged. -/
theorem network_branch (env : Env) (w : World)
    (h : env.create_directories (out_dir env) = none) :
    ((captured env "command -v ss".toList = []
        ∨ "not found".toList <:+: captured env "command -v ss".toList) →
      ((∀ l, env.ofstream l (files_in (out_dir env)).net_txt = some none) →
        (main env w).2.files (files_in (out_dir env)).net_txt
          = some (section_text "Listening sockets (netstat -lntup)".toList
                    (captured env "netstat -lntup".toList)
                ++ section_text "Active connections (netstat -ntup)".toList
                    (captured env "netstat -ntup".toList))) ∧
      sections_written (main env w).2.log (files_in (out_dir env)).net_txt
        = sections_written w.log (files_in (out_dir env)).net_txt
          ++ [section_text "Listening sockets (netstat -lntup)".toList
                (captured env "netstat -lntup".toList),
              section_text "Active connections (netstat -ntup)".toList
                (captured env "netstat -ntup".toList)] ∧
      (∀ c ∈ commands_run (main env w).2.log,
        c ∈ commands_run w.log ∨ ¬ "ss ".toList <+: c)) ∧
    (¬ (captured env "command -v ss".toList = []
        ∨ "not found".toList <:+: captured env "command -v ss".toList) →
      ((∀ l, env.ofstream l (files_in (out_dir env)).net_txt = some none) →
        (main env w).2.files (files_in (out_dir env)).net_txt
          = some (section_text "Listening sockets (ss -lntup)".toList
                    (captured env "ss -lntup".toList)
                ++ section_text "Active connections (ss -ntup)".toList
                    (captured env "ss -ntup".toList))) ∧
      sections_written (main env w).2.log (files_in (out_dir env)).net_txt
        = sections_written w.log (files_in (out_dir env)).net_txt
          ++ [section_text "Listening sockets (ss -lntup)".toList
                (captured env "ss -lntup".toList),
              section_text "Active connections (ss -ntup)".toList
                (captured env "ss -ntup".toList)]) ∧
    (∀ r : Option (Str × Int),
      ((captured { env with popen := Function.update env.popen "command -v ss 2>&1".toList r }
            "command -v ss".toList = []
          ∨ "not found".toList <:+:
            captured { env with popen := Function.update env.popen "command -v ss 2>&1".toList r }
              "command -v ss".toList)
        ↔ (captured env "command -v ss".toList = []
          ∨ "not found".toList <:+: captured env "command -v ss".toList)) →
      (main { env with popen := Function.update env.popen "command -v ss 2>&1".toList r } w).2.files
        = (main env w).2.files) := by
  obtain ⟨_, _, _, f4, _, _⟩ := main_files_of_created env w h
  obtain ⟨_, _, _, l4, _⟩ :=
    sections_written_blocks env (files_in (out_dir env)) (files_in_nodup (out_dir env))
  refine ⟨?_, ?_, ?_⟩
  · intro hmiss
    have hta : tool_available (captured env "command -v ss".toList) = false :=
      (tool_available_eq_false_iff _).mpr hmiss
    refine ⟨?_, ?_, ?_⟩
    · intro hopen
      rw [f4 hopen, net_sections, hta]
      rfl
    · rw [main_log_split env w h, l4, hta]
      rfl
    · intro c hc
      rw [main_log_of_created env w h, commands_run_append, List.mem_append] at hc
      rcases hc with hc | hc
      · exact Or.inl hc
      · right
        rw [commands_run_run_events, hta] at hc
        revert c
        cases tool_available (captured env "command -v systemctl".toList) <;>
          cases log_found env "/var/log/auth.log".toList <;>
          cases log_found env "/var/log/secure".toList <;>
          decide
  · intro hpres
    have hta : tool_available (captured env "command -v ss".toList) = true := by
      rw [← Bool.not_eq_false, tool_available_eq_false_iff]
      exact hpres
    refine ⟨?_, ?_⟩
    · intro hopen
      rw [f4 hopen, net_sections, hta]
      rfl
    · rw [main_log_split env w h, l4, hta]
      rfl
  · intro r hsame
    have hta : tool_available
          (captured { env with popen := Function.update env.popen "command -v ss 2>&1".toList r }
            "command -v ss".toList)
        = tool_available (captured env "command -v ss".toList) := by
      rw [Bool.eq_iff_iff, ← not_iff_not, Bool.not_eq_true, Bool.not_eq_true,
        tool_available_eq_false_iff, tool_available_eq_false_iff]
      exact hsame
    rw [main_congr_ss_probe env r w hta]

/-- Witness for C3: on a host whose probe prints nothing `network.txt` holds the
two `netstat` sections, and on a host whose probe prints a line it holds the
two `ss` sections. -/
theorem network_branch_witness :
    (files_in (out_dir silentEnv)).net_txt
      = "/tmp/incident-snapshot-2024-03-05_07-08-09/network.txt".toList ∧
    (main silentEnv oldWorld).2.files (files_in (out_dir silentEnv)).net_txt
      = some "Listening sockets (netstat -lntup)\n==================================\n(no output)\n\nActive connections (netstat -ntup)\n==================================\n(no output)\n\n".toList ∧
    (main echoEnv oldWorld).2.files (files_in (out_dir echoEnv)).net_txt
      = some "Listening sockets (ss -lntup)\n=============================\nss -lntup 2>&1\n\nActive connections (ss -ntup)\n=============================\nss -ntup 2>&1\n\n".toList :=
  ⟨by decide,
   (((network_branch silentEnv oldWorld rfl).1 (Or.inl (captured_silent _))).1
      (fun _ => rfl)).trans (by simp only [captured_silent]; decide),
   (((network_branch echoEnv oldWorld rfl).2.1 (by rw [captured_echo]; decide)).1
      (fun _ => rfl)).trans (by simp only [captured_echo]; decide)⟩

/-- Counterexample to C3 as stated: on a host where the directory is created,
the probe prints nothing and no file opens for writing, the run ends with exit
code 0 and `network.txt` does not exist. -/
theorem network_file_absent :
    lockedEnv.create_directories (out_dir lockedEnv) = none ∧
    captured lockedEnv "command -v ss".toList = [] ∧
    (main lockedEnv emptyWorld).1 = 0 ∧
    (main lockedEnv emptyWorld).2.files (files_in (out_dir lockedEnv)).net_txt = none :=
  ⟨rfl, captured_locked _, (main_files_of_locked lockedEnv emptyWorld rfl (fun _ _ => rfl)).1,
    by
      rw [(main_files_of_locked lockedEnv emptyWorld rfl (fun _ _ => rfl)).2]
      rfl⟩

theorem section_text_opens_with_title (T B : Str) : (T ++ "\n".toList) <+: section_text T B := by
  by_cases hB : B = []
  · subst hB
    rw [section_text_empty]
    exact ⟨List.replicate T.length '=' ++ "\n".toList ++ "(no output)\n\n".toList, by
      simp [section_header]⟩
  · by_cases hnl : B.getLast? = some '\n'
    · rw [section_text_newline T B hB hnl]
      exact ⟨List.replicate T.length '=' ++ "\n".toList ++ B ++ "\n".toList, by
        simp [section_header]⟩
    · rw [section_text_no_newline T B hB hnl]
      exact ⟨List.replicate T.length '=' ++ "\n".toList ++ B ++ "\n\n".toList, by
        simp [section_header]⟩

theorem section_text_ne_of_titles (T U X Y : Str)
    (h : ¬ ((T ++ "\n".toList) <+: (U ++ "\n".toList)
          ∨ (U ++ "\n".toList) <+: (T ++ "\n".toList))) :
    section_text T X ≠ section_text U Y := by
  intro heq
  apply h
  have h1 := section_text_opens_with_title T X
  have h2 := section_text_opens_with_title U Y
  rw [heq] at h1
  exact List.prefix_or_prefix_of_prefix h1 h2

/-- C4, as the code has it: after a run in which the directory is created, with
an existence check that reports an error counted as a log that does not exist:
when neither log exists the run hands to the streams on `auth_hints.txt`
exactly the section `Auth logs` with the static message; when exactly one
exists, exactly the section on the last 50 lines of that log, which is not the
static section; when both exist, the section on `/var/log/auth.log` and then
the one on `/var/log/secure`, neither being the static section. When the
streams on `auth_hints.txt` all open and deliver what they are given, the file
holds these sections and nothing else. -/
theorem auth_hints_branch (env : Env) (w : World)
    (h : env.create_directories (out_dir env) = none) :
    (log_found env "/var/log/auth.log".toList = false
        ∧ log_found env "/var/log/secure".toList = false →
      ((∀ l, env.ofstream l (files_in (out_dir env)).auth_txt = some none) →
        (main env w).2.files (files_in (out_dir env)).auth_txt
          = some (section_text "Auth logs".toList no_auth_log_message)) ∧
      sections_written (main env w).2.log (files_in (out_dir env)).auth_txt
        = sections_written w.log (files_in (out_dir env)).auth_txt
          ++ [section_text "Auth logs".toList no_auth_log_message]) ∧
    (log_found env "/var/log/auth.log".toList = true
        ∧ log_found env "/var/log/secure".toList = false →
      ((∀ l, env.ofstream l (files_in (out_dir env)).auth_txt = some none) →
        (main env w).2.files (files_in (out_dir env)).auth_txt
          = some (section_text "Last 50 lines of /var/log/auth.log".toList
                    (captured env "tail -n 50 /var/log/auth.log".toList))) ∧
      sections_written (main env w).2.log (files_in (out_dir env)).auth_txt
        = sections_written w.log (files_in (out_dir env)).auth_txt
          ++ [section_text "Last 50 lines of /var/log/auth.log".toList
                (captured env "tail -n 50 /var/log/auth.log".toList)]) ∧
    (log_found env "/var/log/auth.log".toList = false
        ∧ log_found env "/var/log/secure".toList = true →
      ((∀ l, env.ofstream l (files_in (out_dir env)).auth_txt = some none) →
        (main env w).2.files (files_in (out_dir env)).auth_txt
          = some (section_text "Last 50 lines of /var/log/secure".toList
                    (captured env "tail -n 50 /var/log/secure".toList))) ∧
      sections_written (main env w).2.log (files_in (out_dir env)).auth_txt
        = sections_written w.log (files_in (out_dir env)).auth_txt
          ++ [section_text "Last 50 lines of /var/log/secure".toList
                (captured env "tail -n 50 /var/log/secure".toList)]) ∧
    (log_found env "/var/log/auth.log".toList = true
        ∧ log_found env "/var/log/secure".toList = true →
      ((∀ l, env.ofstream l (files_in (out_dir env)).auth_txt = some none) →
        (main env w).2.files (files_in (out_dir env)).auth_txt
          = some (section_text "Last 50 lines of /var/log/auth.log".toList
                    (captured env "tail -n 50 /var/log/auth.log".toList)
                ++ section_text "Last 50 lines of /var/log/secure".toList
                    (captured env "tail -n 50 /var/log/secure".toList))) ∧
      sections_written (main env w).2.log (files_in (out_dir env)).auth_txt
        = sections_written w.log (files_in (out_dir env)).auth_txt
          ++ [section_text "Last 50 lines of /var/log/auth.log".toList
                (captured env "tail -n 50 /var/log/auth.log".toList),
              section_text "Last 50 lines of /var/log/secure".toList
                (captured env "tail -n 50 /var/log/secure".toList)]) ∧
    (∀ B : Str,
      section_text "Last 50 lines of /var/log/auth.log".toList B
        ≠ section_text "Auth logs".toList no_auth_log_message ∧
      section_text "Last 50 lines of /var/log/secure".toList B
        ≠ section_text "Auth logs".toList no_auth_log_message) := by
  obtain ⟨_, _, _, _, _, f6⟩ := main_files_of_created env w h
  obtain ⟨_, _, _, _, l5⟩ :=
    sections_written_blocks env (files_in (out_dir env)) (files_in_nodup (out_dir env))
  refine ⟨?_, ?_, ?_, ?_, ?_⟩
  · rintro ⟨h1, h2⟩
    refine ⟨?_, ?_⟩
    · intro hopen
      rw [f6 hopen, auth_sections, h1, h2]
      rfl
    · rw [main_log_split env w h, l5, h1, h2]
      rfl
  · rintro ⟨h1, h2⟩
    refine ⟨?_, ?_⟩
    · intro hopen
      rw [f6 hopen, auth_sections, h1, h2]
      simp [auth_log_section]
    · rw [main_log_split env w h, l5, h1, h2]
      simp [auth_log_section]
  · rintro ⟨h1, h2⟩
    refine ⟨?_, ?_⟩
    · intro hopen
      rw [f6 hopen, auth_sections, h1, h2]
      simp [secure_section]
    · rw [main_log_split env w h, l5, h1, h2]
      simp [secure_section]
  · rintro ⟨h1, h2⟩
    refine ⟨?_, ?_⟩
    · intro hopen
      rw [f6 hopen, auth_sections, h1, h2]
      simp [auth_log_section, secure_section]
    · rw [main_log_split env w h, l5, h1, h2]
      simp [auth_log_section, secure_section]
  · intro B
    exact ⟨section_text_ne_of_titles _ _ _ _ (by decide),
      section_text_ne_of_titles _ _ _ _ (by decide)⟩

/-- Witness for C4: on a host without any log file `auth_hints.txt` holds the
static section, and on a host with `/var/log/auth.log` alone it holds the
section on that log. -/
theorem auth_hints_branch_witness :
    (files_in (out_dir silentEnv)).auth_txt
      = "/tmp/incident-snapshot-2024-03-05_07-08-09/auth_hints.txt".toList ∧
    (main silentEnv oldWorld).2.files (files_in (out_dir silentEnv)).auth_txt
      = some "Auth logs\n=========\nNo auth log found at /var/log/auth.log or /var/log/secure (or access is restricted).\n\n".toList ∧
    (main debianEnv oldWorld).2.files (files_in (out_dir debianEnv)).auth_txt
      = some "Last 50 lines of /var/log/auth.log\n==================================\ntail -n 50 /var/log/auth.log 2>&1\n\n".toList :=
  ⟨by decide,
   (((auth_hints_branch silentEnv oldWorld rfl).1 ⟨rfl, rfl⟩).1 (fun _ => rfl)).trans
     (by decide),
   (((auth_hints_branch debianEnv oldWorld rfl).2.1 ⟨by decide, by decide⟩).1
      (fun _ => rfl)).trans (by simp only [captured_debian]; decide)⟩

/-- Counterexample to C4 as stated: on a host where the directory is created,
neither log exists and no file opens for writing, the run ends with exit code 0
and `auth_hints.txt` does not exist. -/
theorem auth_hints_file_absent :
    lockedEnv.create_directories (out_dir lockedEnv) = none ∧
    log_found lockedEnv "/var/log/auth.log".toList = false ∧
    log_found lockedEnv "/var/log/secure".toList = false ∧
    (main lockedEnv emptyWorld).1 = 0 ∧
    (main lockedEnv emptyWorld).2.files (files_in (out_dir lockedEnv)).auth_txt = none :=
  ⟨rfl, rfl, rfl, (main_files_of_locked lockedEnv emptyWorld rfl (fun _ _ => rfl)).1, by
    rw [(main_files_of_locked lockedEnv emptyWorld rfl (fun _ _ => rfl)).2]
    rfl⟩

end IncidentSnapshot
